import Mathlib

/-!
Verification of the signal-generation core of a quantitative forex
trading pipeline (six strategy scorers and a confluence aggregator,
originally n8n JavaScript code nodes).

Shallow embedding conventions:
- JavaScript numbers are modelled as exact rationals; candle arrays keep
  the newest-first order of the source.
- A JavaScript value that may be null is an Option; where the code
  distinguishes undefined from null (the confluence regime router), the
  three-valued JOpt type is used.
- JavaScript truthiness on numbers (0 and NaN are falsy) is modelled by
  the tq predicate on Option values, with none standing for null,
  undefined or NaN and some 0 being falsy.
- Math.sqrt appears only in the Bollinger-band helper; it is modelled by
  ratSqrt, exact on rational squares (all concrete inputs used in the
  theorems below have rational standard deviations, where the model and
  the floating-point code agree).
-/

/-- Direction of a trading signal: the JS code uses the strings
buy, sell and flat. -/
inductive Direction
  | buy
  | sell
  | flat
deriving DecidableEq, Repr, Inhabited

/-- Three-valued JS field: undefined (absent key), null, or a value.
The confluence regime router distinguishes undefined from null. -/
inductive JOpt (α : Type)
  | undef
  | null
  | val (a : α)
deriving DecidableEq, Repr

/-- True exactly when the field holds a value (neither null nor undefined);
this is the JS test x !== null and x !== undefined. -/
def JOpt.isVal {α : Type} : JOpt α → Bool
  | .val _ => true
  | _ => false

/-- One OHLC candle. The time field is the epoch-second timestamp; the
open price is never read by the core and is omitted. volume and typical
are optional (only the VWAP scorer needs them). -/
structure Candle where
  time : Nat
  high : ℚ
  low : ℚ
  close : ℚ
  volume : Option ℚ := none
  typical : Option ℚ := none
deriving DecidableEq, Repr, Inhabited

/-- Instrument metadata carried in the candle bundle. -/
structure Meta where
  symbol : String := ""
  pip_size : Option ℚ := none
deriving DecidableEq, Repr

/-- Pivot levels supplied by the upstream S/R filter node. Lowercase
keys are the ones read by the trend and mean-reversion scorers; the
breakout scorer reads the distinct uppercase keys R1, R2, S1, S2
(JS object keys are case sensitive, so they are separate fields). -/
structure Pivots where
  p : Option ℚ := none
  s1 : Option ℚ := none
  s2 : Option ℚ := none
  s3 : Option ℚ := none
  r1 : Option ℚ := none
  r2 : Option ℚ := none
  r3 : Option ℚ := none
  R1 : Option ℚ := none
  R2 : Option ℚ := none
  S1 : Option ℚ := none
  S2 : Option ℚ := none
deriving DecidableEq, Repr

/-- The S/R data item (items[1].json of every scorer). -/
structure SrData where
  pivots : Option Pivots := none
  pdh : Option ℚ := none
  pdl : Option ℚ := none
  pdc : Option ℚ := none
deriving DecidableEq, Repr

/-- The candle bundle produced by the MTF combiner (items[0].json of
every scorer): one symbol's series per timeframe, newest first, plus
the rolling 4h ATR history. -/
structure CandleBundle where
  symbol : String
  data_5m : List Candle := []
  data_15m : List Candle := []
  data_1h : List Candle := []
  data_4h : List Candle := []
  data_daily : List Candle := []
  hist_atr_4h : List ℚ := []
  meta : Meta := {}
deriving DecidableEq, Repr

/-- Named indicator snapshot attached to a signal. The three fields the
confluence regime router inspects keep the JS undefined/null distinction;
the rest are decorative values copied into the output. -/
structure Indicators where
  rsi_4h : JOpt ℚ := .undef
  daily_price_above_ema_200 : JOpt Bool := .undef
  atr_4h_norm : JOpt ℚ := .undef
  rsi_15m : Option ℚ := none
  rsi_1h : Option ℚ := none
  ema_4h : Option ℚ := none
  ema_15m : Option ℚ := none
  atr_1h : Option ℚ := none
  atr_15m : Option ℚ := none
  atr_1h_pips : Option ℚ := none
  adx_4h : Option ℚ := none
  adx_4h_plusDI : Option ℚ := none
  adx_4h_minusDI : Option ℚ := none
  stochRSI_15m_k : Option ℚ := none
  stochRSI_15m_d : Option ℚ := none
  bb_15m_upper : Option ℚ := none
  bb_15m_lower : Option ℚ := none
  bb_15m_middle : Option ℚ := none
  vwap_1h : Option ℚ := none
  vwap_15m : Option ℚ := none
  isHighLiquidity : Option Bool := none
deriving DecidableEq, Repr

/-- A scorer output signal (the json object each scorer node returns).
Fields absent from a given return site are none. -/
structure Sig where
  symbol : String
  signal : Direction
  confidence : ℚ
  price : Option ℚ := none
  recommendedSLPips : Option ℚ := none
  recommendedTPPips : Option ℚ := none
  recommendedSLPrice : Option ℚ := none
  recommendedTPPrice : Option ℚ := none
  reason : String := ""
  signalType : String := ""
  indicators : Option Indicators := none
  sr_data : Option SrData := none
  meta : Option Meta := none
deriving DecidableEq, Repr

/-- The confluence node output record. Its flat emissions carry no
confidence key at all, hence confidence is an Option here. -/
structure AggOut where
  symbol : String
  signal : Direction
  confidence : Option ℚ := none
  price : Option ℚ := none
  strategyType : Option String := none
  reason : String := ""
  regime : Option String := none
  recommendedSLPips : Option ℚ := none
  recommendedTPPips : Option ℚ := none
  sl_price : Option ℚ := none
  tp_price : Option ℚ := none
  indicators : Option Indicators := none
  sr_data : Option SrData := none
  meta : Option Meta := none
deriving DecidableEq, Repr, Inhabited

/-- JS truthiness of a possibly-missing number: null, undefined and 0
are falsy. -/
def tq : Option ℚ → Bool
  | none => false
  | some x => x != 0

/-- JS expression x or-else null on a possibly-missing number: keeps a
truthy value, collapses null, undefined and 0 to null. -/
def jsOrNull : Option ℚ → Option ℚ
  | none => none
  | some x => if x = 0 then none else some x

/-- Math.round of JS: round half toward positive infinity. -/
def jsRound (q : ℚ) : ℤ := ⌊q + 1 / 2⌋

/-- List prefix test used by the substring search below. -/
def listStarts : List Char → List Char → Bool
  | [], _ => true
  | _ :: _, [] => false
  | p :: ps, c :: cs => p == c && listStarts ps cs

/-- List infix test used by the substring search below. -/
def listHasInfix (pat : List Char) : List Char → Bool
  | [] => listStarts pat []
  | c :: cs => listStarts pat (c :: cs) || listHasInfix pat cs

/-- String.prototype.includes of JS, via list infix search. -/
def jsIncludes (s sub : String) : Bool := listHasInfix sub.toList s.toList

/-- Fuelled integer Newton iteration for the floor square root: the
iterate strictly decreases until it passes the root, so any fuel at
least the starting point is enough. -/
def natSqrtGo (n : Nat) : Nat → Nat → Nat
  | x, 0 => x
  | x, fuel + 1 =>
    let y := (x + n / x) / 2
    if y < x then natSqrtGo n y fuel else x

/-- Floor square root of a natural number (structural-recursion variant
of the usual Newton integer square root). -/
def natSqrt (n : Nat) : Nat := if n ≤ 1 then n else natSqrtGo n n n

/-- Math.sqrt model on rationals: exact when the argument is the square
of a rational, 0 otherwise (see the header note). -/
def ratSqrt (q : ℚ) : ℚ :=
  if q < 0 then 0
  else
    let n := q.num.toNat
    let d := q.den
    let sn := natSqrt n
    let sd := natSqrt d
    if sn * sn = n ∧ sd * sd = d then (sn : ℚ) / (sd : ℚ) else 0

/-- Close prices of a candle list, in the same order. -/
def closesOf (data : List Candle) : List ℚ := data.map Candle.close

/-- Successive differences p[i+1] - p[i] of a price list. -/
def deltasOf : List ℚ → List ℚ
  | [] => []
  | [_] => []
  | a :: b :: rest => (b - a) :: deltasOf (b :: rest)

/-- True ranges of the candles after the first one, given the previous
candle: max(high - low, abs (high - prevClose), abs (low - prevClose)). -/
def trPairs : Candle → List Candle → List ℚ
  | _, [] => []
  | prev, c :: rest =>
      max (c.high - c.low) (max |c.high - prev.close| |c.low - prev.close|) ::
        trPairs c rest

/-- Wilder smoothing fold: from a seed average, fold the remaining raw
values with avg = (avg * (period - 1) + x) / period, returning every
intermediate average (newest last). -/
def wilderSteps (period : ℚ) (seed : ℚ) : List ℚ → List ℚ
  | [] => []
  | x :: rest =>
      let nxt := (seed * (period - 1) + x) / period
      nxt :: wilderSteps period nxt rest

/-- Gain/loss Wilder recurrence producing the list of per-step
(avgGain, avgLoss) pairs from the seed pair over a delta list. -/
def gainLossSteps (period : ℚ) (g l : ℚ) : List ℚ → List (ℚ × ℚ)
  | [] => []
  | c :: rest =>
      let gain := if c > 0 then c else 0
      let loss := if c < 0 then -c else 0
      let g2 := (g * (period - 1) + gain) / period
      let l2 := (l * (period - 1) + loss) / period
      (g2, l2) :: gainLossSteps period g2 l2 rest

/-- Seed average gain over the first period deltas (sum of positive
changes divided by period). -/
def seedGain (period : ℚ) (ds : List ℚ) : ℚ :=
  ((ds.map (fun c => if c > 0 then c else 0)).sum) / period

/-- Seed average loss over the first period deltas (sum of negative
changes, negated, divided by period). -/
def seedLoss (period : ℚ) (ds : List ℚ) : ℚ :=
  ((ds.map (fun c => if c < 0 then -c else 0)).sum) / period

/-- Simple moving average of a full window. -/
def smaOf (period : ℚ) (window : List ℚ) : ℚ := window.sum / period

/-- EMA recurrence: ema = price * k + prev * (1 - k), returning every
intermediate value. -/
def emaSteps (k : ℚ) (prev : ℚ) : List ℚ → List ℚ
  | [] => []
  | p :: rest =>
      let e := p * k + prev * (1 - k)
      e :: emaSteps k e rest

/-- Math.min over a spread array (guarded nonempty at every call site). -/
def listMin : List ℚ → ℚ
  | [] => 0
  | x :: xs => xs.foldl min x

/-- Math.max over a spread array (guarded nonempty at every call site). -/
def listMax : List ℚ → ℚ
  | [] => 0
  | x :: xs => xs.foldl max x

/-- Result record of the rsi helpers that always produce a number
(the trend, mean-reversion and breakout families return rsi 50 when the
series is too short). -/
structure RsiRes where
  rsi : ℚ
  values : List ℚ
deriving DecidableEq, Repr

/-- Result record of calculateBollingerBands. -/
structure BBRes where
  upper : Option ℚ
  middle : Option ℚ
  lower : Option ℚ
deriving DecidableEq, Repr

/-- Result record of calculateStochasticRSI. -/
structure StochRes where
  k : Option ℚ
  d : Option ℚ
deriving DecidableEq, Repr

/-- Result record of calculateADX. -/
structure AdxRes where
  adx : Option ℚ
  plusDI : Option ℚ
  minusDI : Option ℚ
deriving DecidableEq, Repr

/-- Shared S/R zone membership test: price strictly inside the open
interval (level - zone, level + zone). -/
def inZone (price level zone : ℚ) : Bool :=
  price > level - zone && price < level + zone

/-- High-low range of the current (newest) 15-minute bar, the quantity
the volatility-spike veto compares against the 15m ATR. -/
def current15mRange (i : CandleBundle) : ℚ :=
  (i.data_15m.headD default).high - (i.data_15m.headD default).low

/-- Close of the current (newest) 15-minute bar. -/
def lastPrice15m (i : CandleBundle) : ℚ :=
  (closesOf i.data_15m).headD 0

namespace ScorerTrend

/-- Configuration constant VOLATILITY_SPIKE_MULT of the trend scorer. -/
def VOLATILITY_SPIKE_MULT : ℚ := 3.0

/-- Configuration constant SR_ZONE_ATR_MULT of the trend scorer. -/
def SR_ZONE_ATR_MULT : ℚ := 0.25

/-- calculateRSI of the trend scorer (part_000): Wilder RSI on the
reversed close series; both the seed and every recurrence step push 100
outright when the average loss is 0. Returns rsi 50 when the series is
shorter than period + 1. -/
def calculateRSI (data : List Candle) (period : Nat := 14) : RsiRes :=
  if data.length < period + 1 then { rsi := 50, values := [] }
  else
    let prices := (closesOf data).reverse
    let p : ℚ := period
    let ds := deltasOf prices
    let g0 := seedGain p (ds.take period)
    let l0 := seedLoss p (ds.take period)
    let seedVal := if l0 = 0 then 100 else 100 - 100 / (1 + g0 / l0)
    let steps := gainLossSteps p g0 l0 (ds.drop period)
    let vals :=
      seedVal :: steps.map (fun gl => if gl.2 = 0 then 100 else 100 - 100 / (1 + gl.1 / gl.2))
    { rsi := vals.getLastD 0, values := vals }

/-- calculateATR of the trend scorer (part_000): true ranges on the
reversed series (the oldest candle contributes high - low), SMA seed
over the first period true ranges, then the Wilder recurrence. The JS
helper also returns the intermediate list, which no caller reads. -/
def calculateATR (data : List Candle) (period : Nat := 14) : Option ℚ :=
  if data.length < period + 1 then none
  else
    match data.reverse with
    | [] => none
    | c0 :: rest =>
        let p : ℚ := period
        let trValues := (c0.high - c0.low) :: trPairs c0 rest
        let firstAtr := smaOf p (trValues.take period)
        let atrValues := firstAtr :: wilderSteps p firstAtr (trValues.drop period)
        some (atrValues.getLastD 0)

/-- Shared EMA core on a chronological price list: SMA seed over the
first period prices, then ema = price * k + prev * (1 - k) with
k = 2 / (period + 1). -/
def emaOnPrices (prices : List ℚ) (period : Nat) : ℚ :=
  let p : ℚ := period
  let k := 2 / (p + 1)
  let seed := smaOf p (prices.take period)
  let vals := seed :: emaSteps k seed (prices.drop period)
  vals.getLastD 0

/-- calculateEMA of the trend scorer (part_000): reverses the close
series and runs the EMA core; null when shorter than period. -/
def calculateEMA (data : List Candle) (period : Nat := 21) : Option ℚ :=
  if data.length < period then none
  else some (emaOnPrices (closesOf data).reverse period)

/-- JS Array.prototype.filter(Boolean) over a level array that may hold
null or undefined entries: drops the missing entries and any level equal
to 0 (both are falsy). -/
def filterLevels (raw : List (Option ℚ)) : List ℚ :=
  (raw.filterMap id).filter (fun x => x ≠ 0)

/-- FILTER 2 of the trend scorer: S/R context adjustment. For a buy the
first resistance level whose zone contains the price subtracts 0.3 and
suppresses the support bonus; otherwise the first support level whose
zone contains the price adds 0.2. A sell mirrors support and resistance.
The numeric level interpolated into the reason string is elided. -/
def srAdjust (isBuy : Bool) (price zone : ℚ) (supports resistances : List ℚ)
    (conf : ℚ) (reason : String) : ℚ × String :=
  if isBuy then
    match resistances.find? (fun r => inZone price r zone) with
    | some _ => (conf - 0.3, reason ++ " (Penalty: At Resistance)")
    | none =>
        match supports.find? (fun s => inZone price s zone) with
        | some _ => (conf + 0.2, reason ++ " (Bonus: At Support)")
        | none => (conf, reason)
  else
    match supports.find? (fun s => inZone price s zone) with
    | some _ => (conf - 0.3, reason ++ " (Penalty: At Support)")
    | none =>
        match resistances.find? (fun r => inZone price r zone) with
        | some _ => (conf + 0.2, reason ++ " (Bonus: At Resistance)")
        | none => (conf, reason)

/-- Step 5 of the trend scorer: the 15-minute entry rules, returning the
signal direction, accumulated base confidence, signalType and reason of
the matched rule (none when no entry fires). htfLong is true when the
4-hour bias is long. -/
def entryRule (htfLong : Bool) (price15 ema15 rsi15 rsi4 : ℚ) :
    Option (Direction × ℚ × String × String) :=
  if htfLong then
    if price15 > ema15 ∧ rsi15 > 55 then
      some (.buy,
        0.5 + 0.15 + (if rsi4 > 60 then 0.15 else 0) + (if rsi15 > 65 then 0.10 else 0),
        "momentum", "4H Trend Up, 15m Momentum (RSI > 55)")
    else if rsi15 < 35 then
      some (.buy,
        0.5 + (if rsi4 > 60 then 0.10 else 0) + (if rsi15 < 25 then 0.20 else 0),
        "reversion", "4H Trend Up, 15m Pullback (RSI < 35)")
    else if price15 ≤ ema15 ∧ rsi15 > 40 then
      some (.buy, 0.6 + (if rsi4 > 60 then 0.15 else 0),
        "shallow_pullback", "4H Trend Up, 15m Pullback to 21-EMA")
    else none
  else
    if price15 < ema15 ∧ rsi15 < 45 then
      some (.sell,
        0.5 + 0.15 + (if rsi4 < 40 then 0.15 else 0) + (if rsi15 < 35 then 0.10 else 0),
        "momentum", "4H Trend Down, 15m Momentum (RSI < 45)")
    else if rsi15 > 65 then
      some (.sell,
        0.5 + (if rsi4 < 40 then 0.10 else 0) + (if rsi15 > 75 then 0.20 else 0),
        "reversion", "4H Trend Down, 15m Pullback (RSI > 65)")
    else if price15 ≥ ema15 ∧ rsi15 < 60 then
      some (.sell, 0.6 + (if rsi4 < 40 then 0.15 else 0),
        "shallow_pullback", "4H Trend Down, 15m Pullback to 21-EMA")
    else none

/-- Flat early-return of the trend scorer. -/
def flatOut (symbol : String) (reason : String) (srData : SrData) : Sig :=
  { symbol, signal := .flat, confidence := 0, reason, sr_data := some srData }

/-- Steps 6b-9 of the trend scorer, from the S/R context adjustment to
the final return: confidence cap at 1, floor veto below 0.1, SL from
1.5 times the 1h ATR (minimum 20 pips), and the dynamic TP from the
nearest S/R level beyond price, defaulting to 1.5 R:R. -/
def finish (symbol : String) (srData : SrData) (meta : Meta) (pipSize : ℚ)
    (inds : Indicators) (last_price_15m last_atr_1h sr_zone_amount : ℚ)
    (supports resistances : List ℚ)
    (dir : Direction) (baseConfidence : ℚ) (signalType reason0 : String) : Sig :=
  let adj := srAdjust (dir == .buy) last_price_15m sr_zone_amount
    supports resistances baseConfidence reason0
  let confidence := min 1 adj.1
  if confidence < 0.1 then
    flatOut symbol (adj.2 ++ " (VETO: S/R context makes confidence too low)") srData
  else
    let currentPrice := last_price_15m
    let slPipsFromATR := last_atr_1h * 1.5 / pipSize
    let recommendedSLPips : ℚ := max 20 ((jsRound slPipsFromATR : ℤ) : ℚ)
    let tpRaw : ℚ :=
      if dir == .buy then
        let targets := resistances.filter (fun r => r > currentPrice)
        if targets.isEmpty then 60
        else (listMin targets - sr_zone_amount / 2 - currentPrice) / pipSize
      else
        let targets := supports.filter (fun s => s < currentPrice)
        if targets.isEmpty then 60
        else (currentPrice - (listMax targets + sr_zone_amount / 2)) / pipSize
    let recommendedTPPips : ℚ :=
      if tpRaw = 0 ∨ tpRaw < recommendedSLPips then
        ((jsRound (recommendedSLPips * 1.5) : ℤ) : ℚ)
      else ((jsRound tpRaw : ℤ) : ℚ)
    { symbol, signal := dir, confidence,
      price := some currentPrice,
      recommendedSLPips := some recommendedSLPips,
      recommendedTPPips := some recommendedTPPips,
      reason := adj.2, signalType,
      indicators := some inds,
      sr_data := some srData, meta := some meta }

/-- Main body of the trend scorer node (part_000, v4.7): data gate,
indicator validity gate, volatility veto, 4h bias, 15m entry rules, S/R
context adjustment, confidence cap and floor veto, and SL/TP
derivation. -/
def run (candleData : CandleBundle) (srData : SrData) : Sig :=
  let symbol := candleData.symbol
  let pipSize := (jsOrNull candleData.meta.pip_size).getD 0.01
  if candleData.data_4h.length < 55 ∨ candleData.data_15m.length < 30 ∨
      candleData.data_1h.length < 30 then
    flatOut symbol "Not enough data for EMAs/RSI" srData
  else
    let rsi_4h := calculateRSI candleData.data_4h 14
    let ema_4h := calculateEMA candleData.data_4h 50
    let rsi_15m := calculateRSI candleData.data_15m 14
    let ema_15m := calculateEMA candleData.data_15m 21
    let atr_1h := calculateATR candleData.data_1h 14
    let atr_15m := calculateATR candleData.data_15m 14
    if rsi_4h.rsi = 0 ∨ ¬ tq ema_4h ∨ rsi_15m.rsi = 0 ∨ ¬ tq ema_15m ∨
        ¬ tq atr_1h ∨ ¬ tq atr_15m then
      flatOut symbol "Indicator calculation failed, not enough data." srData
    else
      let last_rsi_4h := rsi_4h.rsi
      let last_ema_4h := ema_4h.getD 0
      let last_price_4h := (closesOf candleData.data_4h).headD 0
      let last_rsi_15m := rsi_15m.rsi
      let last_ema_15m := ema_15m.getD 0
      let last_price_15m := lastPrice15m candleData
      let last_atr_1h := atr_1h.getD 0
      let last_atr_15m := atr_15m.getD 0
      if current15mRange candleData > last_atr_15m * VOLATILITY_SPIKE_MULT then
        flatOut symbol "VETO: Volatility spike detected. Market unsafe." srData
      else
        let bias : Option Bool :=
          if last_price_4h > last_ema_4h ∧ last_rsi_4h > 52 then some true
          else if last_price_4h < last_ema_4h ∧ last_rsi_4h < 48 then some false
          else none
        match bias with
        | none => flatOut symbol "HTF chop (4H Price vs 50EMA, 4H RSI)" srData
        | some htfLong =>
          match entryRule htfLong last_price_15m last_ema_15m last_rsi_15m last_rsi_4h with
          | none => flatOut symbol "HTF bias set, no 15m entry" srData
          | some (dir, baseConfidence, signalType, reason0) =>
            let sr_zone_amount := last_atr_1h * SR_ZONE_ATR_MULT
            let supports := filterLevels
              ((match srData.pivots with
                | some pv => [pv.s1, pv.s2, pv.s3, srData.pdl, pv.p]
                | none => []) ++ (if htfLong then [some last_ema_4h] else []))
            let resistances := filterLevels
              ((match srData.pivots with
                | some pv => [pv.r1, pv.r2, pv.r3, srData.pdh, pv.p]
                | none => []) ++ (if htfLong then [] else [some last_ema_4h]))
            finish symbol srData candleData.meta pipSize
              { rsi_4h := .val last_rsi_4h, ema_4h := some last_ema_4h,
                rsi_15m := some last_rsi_15m, ema_15m := some last_ema_15m,
                atr_1h := some last_atr_1h, atr_15m := some last_atr_15m }
              last_price_15m last_atr_1h sr_zone_amount supports resistances
              dir baseConfidence signalType reason0

end ScorerTrend

/-- Sliding windows of size n over a value list, one window per index
i = n - 1 .. length - 1 of the JS loops (each window holds the n values
ending at i, oldest first). -/
def slidingWindows (n : Nat) : List ℚ → List (List ℚ)
  | [] => []
  | x :: xs =>
      if (x :: xs).length < n then []
      else (x :: xs).take n :: slidingWindows n xs

namespace ScorerMeanReversion

/-- Configuration constants of the mean-reversion scorer (v1.2). -/
def VOLATILITY_SPIKE_MULT : ℚ := 3.0

/-- S/R zone width multiplier SR_ZONE_ATR_MULT. -/
def SR_ZONE_ATR_MULT : ℚ := 0.25

/-- ADX_TREND_THRESHOLD: ADX at or above this is a trend. -/
def ADX_TREND_THRESHOLD : ℚ := 25

/-- Confidence bonus SR_BONUS_MINOR for the central pivot. -/
def SR_BONUS_MINOR : ℚ := 0.15

/-- Confidence bonus SR_BONUS_MAJOR for S/R 1-3 and PDH/PDL. -/
def SR_BONUS_MAJOR : ℚ := 0.30

/-- calculateRSI of the mean-reversion scorer (part_001): identical to
the trend variant except that a zero average loss substitutes rs = 100
into the formula 100 - 100 / (1 + rs), both at the seed and at every
recurrence step, instead of pushing 100 outright. -/
def calculateRSI (data : List Candle) (period : Nat := 14) : RsiRes :=
  if data.length < period + 1 then { rsi := 50, values := [] }
  else
    let prices := (closesOf data).reverse
    let p : ℚ := period
    let ds := deltasOf prices
    let g0 := seedGain p (ds.take period)
    let l0 := seedLoss p (ds.take period)
    let rs0 := if l0 = 0 then 100 else g0 / l0
    let seedVal := 100 - 100 / (1 + rs0)
    let steps := gainLossSteps p g0 l0 (ds.drop period)
    let vals :=
      seedVal :: steps.map (fun gl =>
        100 - 100 / (1 + (if gl.2 = 0 then 100 else gl.1 / gl.2)))
    { rsi := vals.getLastD 0, values := vals }

/-- calculateATR of the mean-reversion scorer: textually identical to
the trend variant. -/
def calculateATR (data : List Candle) (period : Nat := 14) : Option ℚ :=
  ScorerTrend.calculateATR data period

/-- calculateBollingerBands: rolling period-window mean and population
standard deviation of the reversed close series; the JS computes every
sliding window and reads the last one, which is the window of the
period newest closes. -/
def calculateBollingerBands (data : List Candle) (period : Nat := 20)
    (stdDev : ℚ := 2) : BBRes :=
  if data.length < period then { upper := none, middle := none, lower := none }
  else
    let prices := (closesOf data).reverse
    let window := prices.drop (prices.length - period)
    let p : ℚ := period
    let sma := window.sum / p
    let varianceSum := (window.map (fun b => (b - sma) ^ 2)).sum
    let std := ratSqrt (varianceSum / p)
    { upper := some (sma + std * stdDev), middle := some sma,
      lower := some (sma - std * stdDev) }

/-- calculateStochasticRSI: raw stochastic of the RSI value series over
a rolling stochPeriod window (0 when the window range is 0), smoothed
twice by simple moving averages of kSmooth and dSmooth. -/
def calculateStochasticRSI (data : List Candle) (rsiPeriod stochPeriod kSmooth dSmooth : Nat) :
    StochRes :=
  let rsiValues := (calculateRSI data rsiPeriod).values
  if rsiValues.length < stochPeriod then { k := none, d := none }
  else
    let fastKValues := (slidingWindows stochPeriod rsiValues).map (fun w =>
      let currentRSI := w.getLastD 0
      let minRSI := listMin w
      let maxRSI := listMax w
      if maxRSI - minRSI > 0 then 100 * (currentRSI - minRSI) / (maxRSI - minRSI) else 0)
    if fastKValues.length < kSmooth then { k := none, d := none }
    else
      let slowKValues := (slidingWindows kSmooth fastKValues).map (fun w => w.sum / (kSmooth : ℚ))
      if slowKValues.length < dSmooth then { k := some (slowKValues.getLastD 0), d := none }
      else
        let slowDValues := (slidingWindows dSmooth slowKValues).map (fun w => w.sum / (dSmooth : ℚ))
        { k := some (slowKValues.getLastD 0), d := some (slowDValues.getLastD 0) }

/-- True range and directional movement triple (tr, plusDM, minusDM) of
every candle after the first, given its predecessor. -/
def admTriples : Candle → List Candle → List (ℚ × ℚ × ℚ)
  | _, [] => []
  | prev, c :: rest =>
      let tr := max (c.high - c.low) (max |c.high - prev.close| |c.low - prev.close|)
      let up := c.high - prev.high
      let down := prev.low - c.low
      let pDM := if up > down ∧ up > 0 then up else 0
      let mDM := if down > up ∧ down > 0 then down else 0
      (tr, pDM, mDM) :: admTriples c rest

/-- Running-sum smoothing of the ADX helper: s = s - s / period + x,
returning every intermediate value. -/
def adxSmooth (period : ℚ) (s : ℚ) : List ℚ → List ℚ
  | [] => []
  | x :: rest =>
      let s2 := s - s / period + x
      s2 :: adxSmooth period s2 rest

/-- calculateADX: Wilder-style smoothed true range and directional
movement, directional indices, DX, and ADX seeded by a simple average
of the first period DX values. Null when fewer than 2 * period
candles. -/
def calculateADX (data : List Candle) (period : Nat := 14) : AdxRes :=
  if data.length < period * 2 then { adx := none, plusDI := none, minusDI := none }
  else
    match data.reverse with
    | [] => { adx := none, plusDI := none, minusDI := none }
    | c0 :: rest =>
      let p : ℚ := period
      let triples := admTriples c0 rest
      let trValues := (c0.high - c0.low) :: triples.map (fun t => t.1)
      let plusDM := (0 : ℚ) :: triples.map (fun t => t.2.1)
      let minusDM := (0 : ℚ) :: triples.map (fun t => t.2.2)
      let sumTR := (trValues.take period).sum
      let sumPlusDM := (plusDM.take period).sum
      let sumMinusDM := (minusDM.take period).sum
      let smoothedTRs := sumTR :: adxSmooth p sumTR (trValues.drop period)
      let smoothedPlusDMs := sumPlusDM :: adxSmooth p sumPlusDM (plusDM.drop period)
      let smoothedMinusDMs := sumMinusDM :: adxSmooth p sumMinusDM (minusDM.drop period)
      let dis := (smoothedTRs.zip (smoothedPlusDMs.zip smoothedMinusDMs)).map (fun t =>
        let tr := t.1
        let plusDI := if tr = 0 then 0 else 100 * (t.2.1 / tr)
        let minusDI := if tr = 0 then 0 else 100 * (t.2.2 / tr)
        (plusDI, minusDI))
      let dxValues := dis.map (fun di =>
        let diSum := di.1 + di.2
        if diSum = 0 then 0 else 100 * (|di.1 - di.2| / diSum))
      let adxSeed := (dxValues.take period).sum / p
      let adxValues := adxSeed :: wilderSteps p adxSeed (dxValues.drop period)
      { adx := some (adxValues.getLastD 0),
        plusDI := some ((dis.map (fun di => di.1)).getLastD 0),
        minusDI := some ((dis.map (fun di => di.2)).getLastD 0) }

/-- Tiered S/R confluence bonus of FILTER 2: the first level in scan
order that is truthy and whose zone contains the price contributes its
tier bonus (major 0.30, minor 0.15); no stacking. -/
def srBonus (price zone : ℚ) (levels : List (Option ℚ × ℚ)) : ℚ :=
  match levels.find? (fun lv =>
    match lv.1 with
    | some x => x != 0 && inZone price x zone
    | none => false) with
  | some lv => lv.2
  | none => 0

/-- Flat early-return of the mean-reversion scorer. -/
def flatOut (symbol : String) (reason : String) (srData : SrData) : Sig :=
  { symbol, signal := .flat, confidence := 0, reason, sr_data := some srData }

/-- Buy-side S/R confluence scan of the mean-reversion scorer: PDL and
S1-S3 are major levels, the central pivot is minor; the zone is 25
percent of the 1h ATR. -/
def buySideBonus (candleData : CandleBundle) (srData : SrData) : ℚ :=
  let pv := srData.pivots.getD {}
  srBonus (lastPrice15m candleData)
    ((calculateATR candleData.data_1h 14).getD 0 * SR_ZONE_ATR_MULT)
    [(srData.pdl, SR_BONUS_MAJOR), (pv.s1, SR_BONUS_MAJOR),
     (pv.s2, SR_BONUS_MAJOR), (pv.s3, SR_BONUS_MAJOR), (pv.p, SR_BONUS_MINOR)]

/-- Step 7-8 of the mean-reversion scorer: cap the confidence at 1, veto
below the 0.30 base, then emit with SL from 1.5 times the 1h ATR and the
middle Bollinger band as TP price. -/
def finish (symbol : String) (srData : SrData) (meta : Meta) (pipSize : ℚ)
    (inds : Indicators) (currentPrice last_atr_1h : ℚ) (bbMiddle : Option ℚ)
    (dir : Direction) (cRaw : ℚ) (reason0 : String) : Sig :=
  let confidence := min 1 cRaw
  if confidence < 0.30 then
    flatOut symbol (reason0 ++ " (VETO: Context makes confidence too low)") srData
  else
    let slPipsFromATR := last_atr_1h * 1.5 / pipSize
    let recommendedSLPips : ℚ := max 20 ((jsRound slPipsFromATR : ℤ) : ℚ)
    { symbol, signal := dir, confidence,
      price := some currentPrice,
      recommendedSLPips := some recommendedSLPips,
      recommendedTPPrice := bbMiddle,
      reason := reason0, signalType := "reversion",
      indicators := some inds,
      sr_data := some srData, meta := some meta }

/-- Sell-side S/R confluence scan of the mean-reversion scorer: PDH and
R1-R3 are major levels, the central pivot is minor. -/
def sellSideBonus (candleData : CandleBundle) (srData : SrData) : ℚ :=
  let pv := srData.pivots.getD {}
  srBonus (lastPrice15m candleData)
    ((calculateATR candleData.data_1h 14).getD 0 * SR_ZONE_ATR_MULT)
    [(srData.pdh, SR_BONUS_MAJOR), (pv.r1, SR_BONUS_MAJOR),
     (pv.r2, SR_BONUS_MAJOR), (pv.r3, SR_BONUS_MAJOR), (pv.p, SR_BONUS_MINOR)]

/-- Entry step 5 of the mean-reversion scorer: Bollinger-band touch plus
Stochastic-RSI extreme, with the regime-dependent reward-based
confidence (the JS leaves confidence at its initial 0.0 when the ADX is
at the trend threshold with equal directional indices). -/
def entryRule (isRanging isTrendingUp isTrendingDown : Bool)
    (atLowerBand isOversold atUpperBand isOverbought : Bool) :
    Option (Direction × ℚ × String) :=
  let baseConfidence : ℚ := 0.30
  if atLowerBand && isOversold then
    some (.buy,
      (if isRanging then baseConfidence + 0.4
       else if isTrendingUp then baseConfidence + 0.3
       else if isTrendingDown then baseConfidence
       else 0),
      "15m Oversold (StochRSI < 20) + Below Lower BB")
  else if atUpperBand && isOverbought then
    some (.sell,
      (if isRanging then baseConfidence + 0.4
       else if isTrendingDown then baseConfidence + 0.3
       else if isTrendingUp then baseConfidence
       else 0),
      "15m Overbought (StochRSI > 80) + Above Upper BB")
  else none

/-- Main body of the mean-reversion scorer node (part_001, v1.2). -/
def run (candleData : CandleBundle) (srData : SrData) : Sig :=
  let symbol := candleData.symbol
  let pipSize := (jsOrNull candleData.meta.pip_size).getD 0.01
  if candleData.data_4h.length < 50 ∨ candleData.data_15m.length < 50 ∨
      candleData.data_1h.length < 30 ∨ srData.pivots = none then
    flatOut symbol "Not enough data for Mean Reversion (needs candles + pivots)" srData
  else
    let adx_4h := calculateADX candleData.data_4h 14
    let stochRSI_15m := calculateStochasticRSI candleData.data_15m 14 14 3 3
    let bb_15m := calculateBollingerBands candleData.data_15m 20 2
    let atr_1h := calculateATR candleData.data_1h 14
    let atr_15m := calculateATR candleData.data_15m 14
    if ¬ tq adx_4h.adx ∨ ¬ tq stochRSI_15m.k ∨ ¬ tq bb_15m.upper ∨
        ¬ tq atr_1h ∨ ¬ tq atr_15m then
      flatOut symbol "Indicator calculation failed, not enough data." srData
    else
      let last_adx_4h := adx_4h.adx.getD 0
      let last_stochRSI_k := stochRSI_15m.k.getD 0
      let last_price_15m := lastPrice15m candleData
      let last_atr_1h := atr_1h.getD 0
      if current15mRange candleData > (atr_15m.getD 0) * VOLATILITY_SPIKE_MULT then
        flatOut symbol "VETO (Reversion): Volatility spike detected. Market unsafe." srData
      else
        let isRanging := last_adx_4h < ADX_TREND_THRESHOLD
        let isTrendingUp := ADX_TREND_THRESHOLD ≤ last_adx_4h ∧
          adx_4h.plusDI.getD 0 > adx_4h.minusDI.getD 0
        let isTrendingDown := ADX_TREND_THRESHOLD ≤ last_adx_4h ∧
          adx_4h.minusDI.getD 0 > adx_4h.plusDI.getD 0
        let isOverbought := last_stochRSI_k > 80
        let isOversold := last_stochRSI_k < 20
        let atUpperBand := last_price_15m > bb_15m.upper.getD 0
        let atLowerBand := last_price_15m < bb_15m.lower.getD 0
        match entryRule isRanging isTrendingUp isTrendingDown
          atLowerBand isOversold atUpperBand isOverbought with
        | none => flatOut symbol "No reversion signal (15m StochRSI)" srData
        | some (dir, conf0, reason0) =>
          let bonus :=
            if dir == .buy then buySideBonus candleData srData
            else sellSideBonus candleData srData
          finish symbol srData candleData.meta pipSize
            { adx_4h := some last_adx_4h,
              adx_4h_plusDI := adx_4h.plusDI,
              adx_4h_minusDI := adx_4h.minusDI,
              stochRSI_15m_k := some last_stochRSI_k,
              stochRSI_15m_d := stochRSI_15m.d,
              atr_1h := some last_atr_1h,
              bb_15m_upper := bb_15m.upper,
              bb_15m_lower := bb_15m.lower,
              bb_15m_middle := bb_15m.middle }
            last_price_15m last_atr_1h bb_15m.middle dir (conf0 + bonus) reason0

end ScorerMeanReversion

/-- Ascending insertion used by the percentile sort below. -/
def insertAsc (x : ℚ) : List ℚ → List ℚ
  | [] => [x]
  | y :: ys => if x ≤ y then x :: y :: ys else y :: insertAsc x ys

/-- Ascending sort of the historical ATR array, modelling the JS
numeric-comparator Array.prototype.sort. -/
def sortAsc (l : List ℚ) : List ℚ := l.foldr insertAsc []

/-- computeAtr4hNorm shared by the structure, VWAP and liquidity
scorers: the 0-1 percentile rank of the current 4h ATR within the
sorted historical 4h ATR array; null on missing ATR or fewer than 20
history entries. -/
def computeAtr4hNorm (last_atr_4h : Option ℚ) (histATRArray : List ℚ) : Option ℚ :=
  match last_atr_4h with
  | none => none
  | some a =>
      if histATRArray.length < 20 then none
      else
        let sortedAtr := sortAsc histATRArray
        let rank :=
          match sortedAtr.findIdx? (fun v => a ≤ v) with
          | some i => i
          | none => sortedAtr.length
        some ((rank : ℚ) / (sortedAtr.length : ℚ))

/-- Indicator-snapshot half of normalizeOutput: fill atr_1h_pips from a
truthy atr_1h when absent, and turn an undefined daily-EMA flag or
atr_4h_norm into an explicit null. -/
def normInd (ind : Indicators) (pipSize : ℚ) : Indicators :=
  { ind with
    atr_1h_pips :=
      match ind.atr_1h_pips, ind.atr_1h with
      | none, some a => if a = 0 then none else some ((jsRound (a / pipSize) : ℤ) : ℚ)
      | x, _ => x,
    daily_price_above_ema_200 :=
      match ind.daily_price_above_ema_200 with
      | .undef => .null
      | x => x,
    atr_4h_norm :=
      match ind.atr_4h_norm with
      | .undef => .null
      | x => x }

/-- normalizeOutput shared (textually identical up to the default
signalType string) by the structure, VWAP and liquidity scorers: default
the signalType, clamp confidence into the unit interval, round the
truthy pip recommendations (collapsing falsy ones to null), and
normalise the indicator snapshot. -/
def normalizeOutput (defaultType : String) (out : Sig) (pipSize : ℚ) : Sig :=
  { out with
    signalType := if out.signalType = "" then defaultType else out.signalType,
    confidence := max 0 (min 1 out.confidence),
    recommendedSLPips := (jsOrNull out.recommendedSLPips).map (fun v => ((jsRound v : ℤ) : ℚ)),
    recommendedTPPips := (jsOrNull out.recommendedTPPips).map (fun v => ((jsRound v : ℤ) : ℚ)),
    indicators := some (normInd (out.indicators.getD {}) pipSize) }

namespace ScorerStructure

/-- calculateRSI of the structure scorer: consumes a chronological
series (the caller reverses), smooths gains and losses through the whole
series, and checks the zero average loss only once at the end, returning
100 there; null when shorter than period + 1. -/
def calculateRSI (data : List Candle) (period : Nat := 14) : Option ℚ :=
  if data.length < period + 1 then none
  else
    let p : ℚ := period
    let ds := deltasOf (closesOf data)
    let g0 := seedGain p (ds.take period)
    let l0 := seedLoss p (ds.take period)
    let fin := (gainLossSteps p g0 l0 (ds.drop period)).getLastD (g0, l0)
    if fin.2 = 0 then some 100
    else some (100 - 100 / (1 + fin.1 / fin.2))

/-- calculateATR of the structure scorer: consumes a chronological
series; true ranges start at the second candle (the first candle
contributes none), SMA seed, then the Wilder recurrence. -/
def calculateATR (data : List Candle) (period : Nat := 14) : Option ℚ :=
  if data.length < period + 1 then none
  else
    match data with
    | [] => none
    | c0 :: rest =>
        let p : ℚ := period
        let trs := trPairs c0 rest
        if trs.length < period then none
        else
          let seed := (trs.take period).sum / p
          some ((seed :: wilderSteps p seed (trs.drop period)).getLastD 0)

/-- calculateEMA of the structure scorer: consumes a chronological
series and runs the shared EMA core directly. -/
def calculateEMA (data : List Candle) (period : Nat := 21) : Option ℚ :=
  if data.length < period then none
  else some (ScorerTrend.emaOnPrices (closesOf data) period)

/-- Flat early-return of the structure scorer (goes through
normalizeOutput and carries no sr_data). -/
def flatOut (symbol : String) (reason : String) (pipSize : ℚ) : Sig :=
  normalizeOutput "market_structure"
    { symbol, signal := .flat, confidence := 0, reason } pipSize

/-- Step 4 of the structure scorer: BOS/CHOCH detection against PDH/PDL
with 1h RSI confirmation, relative to the daily 200-EMA bias. -/
def entryRule (daily_above_200 : Bool) (prev_price last_price pdh pdl rsi : ℚ) :
    Option (Direction × ℚ × String) :=
  if daily_above_200 then
    if prev_price < pdh ∧ last_price > pdh ∧ rsi > 55 then
      some (.buy, 0.70, "HTF Up, Bullish BOS (Break of PDH) w/ Momentum")
    else if prev_price > pdl ∧ last_price < pdl ∧ rsi < 45 then
      some (.sell, 0.65, "HTF Up, Bearish CHOCH (Break of PDL)")
    else none
  else
    if prev_price > pdl ∧ last_price < pdl ∧ rsi < 45 then
      some (.sell, 0.70, "HTF Down, Bearish BOS (Break of PDL) w/ Momentum")
    else if prev_price < pdh ∧ last_price > pdh ∧ rsi > 55 then
      some (.buy, 0.65, "HTF Down, Bullish CHOCH (Break of PDH)")
    else none

/-- Main body of the structure scorer node (part_001, Scorer_Structure
v1.1): BOS/CHOCH against PDH/PDL on the 1h chart with a daily 200-EMA
bias. This scorer has no volatility-spike veto. -/
def run (candleData : CandleBundle) (srData : SrData) : Sig :=
  let symbol := candleData.symbol
  let pipSize := (jsOrNull candleData.meta.pip_size).getD
    (if jsIncludes symbol "JPY" then 0.01 else 0.0001)
  if candleData.data_1h.length < 50 ∨ candleData.data_4h.length < 50 ∨
      candleData.data_daily.length < 200 then
    flatOut symbol "Not enough candle data" pipSize
  else if ¬ tq srData.pdh ∨ ¬ tq srData.pdl then
    flatOut symbol "VETO: Missing PDH/PDL from srData." pipSize
  else
    let daily_ema_200 := calculateEMA candleData.data_daily.reverse 200
    let last_daily_price := (closesOf candleData.data_daily).headD 0
    let daily_above_200 := tq daily_ema_200 && last_daily_price > daily_ema_200.getD 0
    let atr_4h := calculateATR candleData.data_4h.reverse 14
    let atr_4h_norm := computeAtr4hNorm atr_4h candleData.hist_atr_4h
    let atr_1h := calculateATR candleData.data_1h.reverse 14
    let rsi_1h := calculateRSI candleData.data_1h.reverse 14
    let last_price := (closesOf candleData.data_1h).headD 0
    let atr_1h_pips : ℚ :=
      if tq atr_1h ∧ pipSize ≠ 0 then ((jsRound (atr_1h.getD 0 / pipSize) : ℤ) : ℚ) else 20
    if ¬ tq atr_1h ∨ ¬ tq rsi_1h then
      flatOut symbol "Failed to calculate ATR/RSI." pipSize
    else
      let pdh := srData.pdh.getD 0
      let pdl := srData.pdl.getD 0
      let slPips : ℚ := max 15 ((jsRound (atr_1h_pips * 2.0) : ℤ) : ℚ)
      let tpPips : ℚ := ((jsRound (slPips * 1.5) : ℤ) : ℚ)
      let prev_price := ((closesOf candleData.data_1h).drop 1).headD 0
      let rsi := rsi_1h.getD 0
      let entry := entryRule daily_above_200 prev_price last_price pdh pdl rsi
      let sig : Direction := match entry with | some e => e.1 | none => .flat
      let conf : ℚ := match entry with | some e => e.2.1 | none => 0
      let reason : String := match entry with | some e => e.2.2 | none => "No signal"
      normalizeOutput "market_structure"
        { symbol, signal := sig, confidence := conf,
          price := some last_price,
          recommendedSLPips := if sig ≠ .flat then some slPips else none,
          recommendedTPPips := if sig ≠ .flat then some tpPips else none,
          reason, signalType := "market_structure",
          indicators := some
            { rsi_1h := some rsi,
              atr_1h := atr_1h,
              daily_price_above_ema_200 := .val daily_above_200,
              atr_4h_norm := match atr_4h_norm with
                | some v => .val v
                | none => .null,
              atr_1h_pips := some atr_1h_pips },
          sr_data := some srData, meta := some candleData.meta } pipSize

end ScorerStructure

namespace ScorerBreakout

/-- calculateRSI of the breakout scorer: the recurrence substitutes
rs = 100 on a zero average loss like the mean-reversion variant, but the
seed value divides without a guard. Under the IEEE semantics of the JS
number type, a zero average loss at the seed gives Infinity (hence RSI
100) when the average gain is positive and NaN (modelled none) when both
averages are zero; a series shorter than period + 1 yields rsi 50. -/
def calculateRSI (data : List Candle) (period : Nat := 14) : Option ℚ :=
  if data.length < period + 1 then some 50
  else
    let prices := (closesOf data).reverse
    let p : ℚ := period
    let ds := deltasOf prices
    let g0 := seedGain p (ds.take period)
    let l0 := seedLoss p (ds.take period)
    let seedVal : Option ℚ :=
      if l0 = 0 then (if g0 = 0 then none else some 100)
      else some (100 - 100 / (1 + g0 / l0))
    let steps := gainLossSteps p g0 l0 (ds.drop period)
    let stepVals := steps.map (fun gl =>
      100 - 100 / (1 + (if gl.2 = 0 then 100 else gl.1 / gl.2)))
    match stepVals.getLast? with
    | some v => some v
    | none => seedVal

/-- calculateATR of the breakout scorer: textually identical to the
trend variant. -/
def calculateATR (data : List Candle) (period : Nat := 14) : Option ℚ :=
  ScorerTrend.calculateATR data period

/-- calculateEMA of the breakout scorer: textually identical to the
trend variant. -/
def calculateEMA (data : List Candle) (period : Nat := 21) : Option ℚ :=
  ScorerTrend.calculateEMA data period

/-- Flat early-return of the breakout scorer. -/
def flatOut (symbol : String) (reason : String) (srData : SrData) : Sig :=
  { symbol, signal := .flat, confidence := 0, reason, sr_data := some srData }

/-- UTC hour of an epoch-second timestamp, as computed by
new Date(time * 1000).getUTCHours(). -/
def utcHour (time : Nat) : Nat := time / 3600 % 24

/-- Session filter of the breakout scorer: only the London open
(UTC hours 7-10) and the New York open (UTC hours 12-15). -/
def isHighLiquidityHour (h : Nat) : Bool :=
  (7 ≤ h && h ≤ 10) || (12 ≤ h && h ≤ 15)

/-- Step 5 of the breakout scorer: PDH/PDL break-and-retest entry, gated
by the 4h bias and the session filter. -/
def entryRule (bias : Option Bool) (isHighLiquidity : Bool)
    (prev_close_15m last_price_15m pdh pdl sr_zone_amount last_rsi_15m : ℚ) :
    Option (Direction × String) :=
  if bias = some true ∧ isHighLiquidity then
    if prev_close_15m > pdh ∧
        (last_price_15m < pdh + sr_zone_amount ∧ last_price_15m > pdh) ∧
        last_rsi_15m > 55 then
      some (.buy, "4H Trend Up, 15m Break-and-Retest of PDH in high-liquidity session.")
    else none
  else if bias = some false ∧ isHighLiquidity then
    if prev_close_15m < pdl ∧
        (last_price_15m > pdl - sr_zone_amount ∧ last_price_15m < pdl) ∧
        last_rsi_15m < 45 then
      some (.sell, "4H Trend Down, 15m Break-and-Retest of PDL in high-liquidity session.")
    else none
  else none

/-- Main body of the breakout scorer node (08_Scorer_Breakout v2.1):
PDH/PDL break-and-retest on the 15m chart, gated by a 4h EMA bias and
the session filter, with structural SL and pivot-based TP. The TP reads
the uppercase pivot keys R1/R2/S1/S2. When the pivot object itself is
absent the JS property read would throw and the node would emit nothing;
the model substitutes an empty pivot set, whose falsy members take the
same no-valid-TP veto path. -/
def run (candleData : CandleBundle) (srData : SrData) : Sig :=
  let symbol := candleData.symbol
  let pipSize := (jsOrNull candleData.meta.pip_size).getD 0.01
  if candleData.data_4h.length < 55 ∨ candleData.data_15m.length < 30 ∨
      candleData.data_1h.length < 30 ∨ ¬ tq srData.pdh ∨ ¬ tq srData.pdl then
    flatOut symbol "Not enough data for B&R (needs candles + PDH/PDL)" srData
  else
    let rsi_4h := calculateRSI candleData.data_4h 14
    let ema_4h := calculateEMA candleData.data_4h 50
    let rsi_15m := calculateRSI candleData.data_15m 14
    let atr_1h := calculateATR candleData.data_1h 14
    let atr_15m := calculateATR candleData.data_15m 14
    if ¬ tq rsi_4h ∨ ¬ tq ema_4h ∨ ¬ tq rsi_15m ∨ ¬ tq atr_1h ∨ ¬ tq atr_15m then
      flatOut symbol "Indicator calculation failed, not enough data." srData
    else
      let last_rsi_4h := rsi_4h.getD 0
      let last_ema_4h := ema_4h.getD 0
      let last_price_4h := (closesOf candleData.data_4h).headD 0
      let last_rsi_15m := rsi_15m.getD 0
      let last_price_15m := lastPrice15m candleData
      let prev_close_15m := ((closesOf candleData.data_15m).drop 1).headD 0
      let last_atr_1h := atr_1h.getD 0
      if current15mRange candleData > (atr_15m.getD 0) * 3.0 then
        flatOut symbol "VETO (B&R): Volatility spike detected. Market unsafe." srData
      else
        let bias : Option Bool :=
          if last_price_4h > last_ema_4h then some true
          else if last_price_4h < last_ema_4h then some false
          else none
        let currentHour := utcHour (candleData.data_15m.headD default).time
        let isHighLiquidity := isHighLiquidityHour currentHour
        let sr_zone_amount := last_atr_1h * 0.25
        let pdh := srData.pdh.getD 0
        let pdl := srData.pdl.getD 0
        match entryRule bias isHighLiquidity prev_close_15m last_price_15m
          pdh pdl sr_zone_amount last_rsi_15m with
        | none => flatOut symbol "No B&R setup" srData
        | some (dir, reason0) =>
          let currentPrice := last_price_15m
          let pv := srData.pivots.getD {}
          let recommendedSLPrice := if dir == .buy then pdh - sr_zone_amount else pdl + sr_zone_amount
          let tp0 : Option ℚ := if dir == .buy then pv.R1 else pv.S1
          let recommendedTPPrice : Option ℚ :=
            if dir == .buy then
              if tq tp0 ∧ tp0.getD 0 < currentPrice + (currentPrice - recommendedSLPrice) then
                (if tq pv.R2 then pv.R2 else tp0)
              else tp0
            else
              if tq tp0 ∧ tp0.getD 0 > currentPrice - (recommendedSLPrice - currentPrice) then
                (if tq pv.S2 then pv.S2 else tp0)
              else tp0
          if ¬ tq recommendedTPPrice then
            flatOut symbol "VETO: triggered but no valid S/R pivot found for Take Profit." srData
          else
            let slDistance := |currentPrice - recommendedSLPrice|
            let recommendedSLPips : ℚ := max 20 ((jsRound (slDistance / pipSize) : ℤ) : ℚ)
            { symbol, signal := dir, confidence := 0.85,
              price := some currentPrice,
              recommendedSLPips := some recommendedSLPips,
              recommendedSLPrice := some recommendedSLPrice,
              recommendedTPPrice := recommendedTPPrice,
              reason := reason0, signalType := "break-and-retest",
              indicators := some
                { rsi_4h := .val last_rsi_4h,
                  rsi_15m := some last_rsi_15m,
                  atr_1h := some last_atr_1h,
                  isHighLiquidity := some isHighLiquidity },
              sr_data := some srData, meta := some candleData.meta }

end ScorerBreakout

namespace ScorerVWAP

/-- calculateVWAP: cumulative typical-price-times-volume over cumulative
volume, computed chronologically; null on an empty series, a falsy
typical price or volume on the newest candle, or zero cumulative volume.
Candles whose typical price or volume is missing (NaN after parseFloat)
are skipped. -/
def calculateVWAP (data : List Candle) : Option ℚ :=
  match data with
  | [] => none
  | c0 :: _ =>
      if ¬ tq c0.typical ∨ ¬ tq c0.volume then none
      else
        let pairs := data.reverse.filterMap (fun c =>
          match c.typical, c.volume with
          | some t, some v => some (t, v)
          | _, _ => none)
        let cumulativeTypicalVolume := (pairs.map (fun q => q.1 * q.2)).sum
        let cumulativeVolume := (pairs.map (fun q => q.2)).sum
        if cumulativeVolume = 0 then none
        else some (cumulativeTypicalVolume / cumulativeVolume)

/-- Flat early-return of the VWAP scorer (through normalizeOutput,
no sr_data). -/
def flatOut (symbol : String) (reason : String) (pipSize : ℚ) : Sig :=
  normalizeOutput "vwap_bias"
    { symbol, signal := .flat, confidence := 0, reason } pipSize

/-- Step 4 of the VWAP scorer: with the daily bias and the 1h VWAP side
confirmed, enter on a 15m pullback into the 15m VWAP zone. -/
def entryRule (daily_above_200 : Bool) (last_price vwap1h vwap15m vwap_zone : ℚ) :
    Option (Direction × String) :=
  if daily_above_200 ∧ last_price > vwap1h then
    if inZone last_price vwap15m vwap_zone then
      some (.buy, "HTF Up, Price > 1H VWAP, Pullback to 15m VWAP support")
    else none
  else if ¬ (daily_above_200 : Bool) ∧ last_price < vwap1h then
    if inZone last_price vwap15m vwap_zone then
      some (.sell, "HTF Down, Price < 1H VWAP, Pullback to 15m VWAP resistance")
    else none
  else none

/-- Main body of the VWAP scorer node (Scorer_VWAP v1.0): daily 200-EMA
bias, 1h VWAP side confirmation, and a 15m pullback into the 15m VWAP
zone. The source lists its standard helpers only as stubs marked Same as
other scorers; they are taken as the trend-scorer family (which reverses
internally, matching the unreversed series this node passes), and
computeAtr4hNorm and normalizeOutput as the shared versions. This scorer
has no volatility-spike veto. -/
def run (candleData : CandleBundle) (srData : SrData) : Sig :=
  let symbol := candleData.symbol
  let pipSize := (jsOrNull candleData.meta.pip_size).getD 0.01
  if candleData.data_1h.length < 24 ∨ candleData.data_15m.length < 24 ∨
      candleData.data_4h.length < 50 ∨ candleData.data_daily.length < 200 then
    flatOut symbol "Not enough candle data" pipSize
  else if ¬ tq (candleData.data_15m.headD default).volume ∨
      ¬ tq (candleData.data_15m.headD default).typical ∨
      ¬ tq (candleData.data_1h.headD default).volume ∨
      ¬ tq (candleData.data_1h.headD default).typical then
    flatOut symbol "VETO: Candle data is missing volume or typical properties." pipSize
  else
    let daily_ema_200 := ScorerTrend.calculateEMA candleData.data_daily 200
    let last_daily_price := (closesOf candleData.data_daily).headD 0
    let daily_above_200 := tq daily_ema_200 && last_daily_price > daily_ema_200.getD 0
    let atr_4h := ScorerTrend.calculateATR candleData.data_4h 14
    let atr_4h_norm := computeAtr4hNorm atr_4h candleData.hist_atr_4h
    let atr_1h := ScorerTrend.calculateATR candleData.data_1h 14
    let rsi_4h := ScorerTrend.calculateRSI candleData.data_4h 14
    let vwap_1h := calculateVWAP candleData.data_1h
    let vwap_15m := calculateVWAP candleData.data_15m
    let last_price := (closesOf candleData.data_15m).headD 0
    let atr_1h_pips : ℚ :=
      if tq atr_1h ∧ pipSize ≠ 0 then ((jsRound (atr_1h.getD 0 / pipSize) : ℤ) : ℚ) else 20
    let vwap_zone := (atr_1h.getD 0) * 0.25
    if ¬ tq vwap_1h ∨ ¬ tq vwap_15m ∨ ¬ tq atr_1h then
      flatOut symbol "Failed to calculate VWAP or ATR." pipSize
    else
      let slPips : ℚ := max 15 ((jsRound (atr_1h_pips * 1.5) : ℤ) : ℚ)
      let tpPips : ℚ := ((jsRound (slPips * 1.8) : ℤ) : ℚ)
      let entry := entryRule daily_above_200 last_price (vwap_1h.getD 0)
        (vwap_15m.getD 0) vwap_zone
      let sig : Direction := match entry with | some e => e.1 | none => .flat
      let conf : ℚ := match entry with | some _ => 0.65 | none => 0
      let reason : String := match entry with | some e => e.2 | none => "No signal"
      normalizeOutput "vwap_bias"
        { symbol, signal := sig, confidence := conf,
          price := some last_price,
          recommendedSLPips := some slPips,
          recommendedTPPips := some tpPips,
          reason, signalType := "vwap_bias",
          indicators := some
            { rsi_4h := .val rsi_4h.rsi,
              atr_1h := atr_1h,
              daily_price_above_ema_200 := .val daily_above_200,
              atr_4h_norm := match atr_4h_norm with
                | some v => .val v
                | none => .null,
              atr_1h_pips := some atr_1h_pips,
              vwap_1h := vwap_1h,
              vwap_15m := vwap_15m },
          sr_data := some srData, meta := some candleData.meta } pipSize

end ScorerVWAP

/-- One fair value gap: the price imbalance between candle 1 and
candle 3 of a 3-candle window. -/
structure FVG where
  top : ℚ
  bottom : ℚ
  time : Nat
deriving DecidableEq, Repr

namespace ScorerLiquidity

/-- findFVGs: scan every consecutive 3-candle window of a newest-first
series; a bullish gap exists when the oldest high sits below the newest
low (top = newest low, bottom = oldest high), a bearish gap is the
mirror on lows and highs. Gaps are listed in scan order, newest
window first. -/
def findFVGs : List Candle → List FVG × List FVG
  | c3 :: c2 :: c1 :: rest =>
      let tailGaps := findFVGs (c2 :: c1 :: rest)
      ((if c1.high < c3.low then [⟨c3.low, c1.high, c3.time⟩] else []) ++ tailGaps.1,
       (if c1.low > c3.high then [⟨c1.low, c3.high, c3.time⟩] else []) ++ tailGaps.2)
  | _ => ([], [])

/-- Head of the JS descending sort by gap top (stable, only index 0 is
read): the first gap attaining the maximal top. -/
def firstMaxByTop : List FVG → Option FVG
  | [] => none
  | x :: xs => some (xs.foldl (fun b a => if a.top > b.top then a else b) x)

/-- Head of the JS ascending sort by gap bottom (stable, only index 0 is
read): the first gap attaining the minimal bottom. -/
def firstMinByBottom : List FVG → Option FVG
  | [] => none
  | x :: xs => some (xs.foldl (fun b a => if a.bottom < b.bottom then a else b) x)

/-- Flat early-return of the liquidity scorer (through normalizeOutput,
no sr_data). -/
def flatOut (symbol : String) (reason : String) (pipSize : ℚ) : Sig :=
  normalizeOutput "liquidity"
    { symbol, signal := .flat, confidence := 0, reason } pipSize

/-- Step 4 of the liquidity scorer: in the bias direction, find the
nearest unfilled 1h fair value gap within one 1h ATR of price; the third
component is the recomputed 2R take-profit in pips. -/
def entryRule (daily_200_ema : Bool) (fvgs : List FVG × List FVG)
    (last_price atr_1h_value pipSize : ℚ) : Option (Direction × String × ℚ) :=
  if daily_200_ema ∧ ¬ fvgs.1.isEmpty then
    match firstMaxByTop (fvgs.1.filter (fun fvg => fvg.top < last_price)) with
    | none => none
    | some nearestFVG =>
        let distToFVG := last_price - nearestFVG.top
        if distToFVG > 0 ∧ distToFVG < atr_1h_value * 1.0 then
          let slPrice := nearestFVG.bottom - atr_1h_value * 0.25
          let calculatedSLPips := |last_price - slPrice| / pipSize
          some (.buy, "HTF Up, Price pulling back to nearest 1H Bullish FVG",
            ((jsRound (calculatedSLPips * 2.0) : ℤ) : ℚ))
        else none
  else if ¬ (daily_200_ema : Bool) ∧ ¬ fvgs.2.isEmpty then
    match firstMinByBottom (fvgs.2.filter (fun fvg => fvg.bottom > last_price)) with
    | none => none
    | some nearestFVG =>
        let distToFVG := nearestFVG.bottom - last_price
        if distToFVG > 0 ∧ distToFVG < atr_1h_value * 1.0 then
          let slPrice := nearestFVG.top + atr_1h_value * 0.25
          let calculatedSLPips := |last_price - slPrice| / pipSize
          some (.sell, "HTF Down, Price pulling back to nearest 1H Bearish FVG",
            ((jsRound (calculatedSLPips * 2.0) : ℤ) : ℚ))
        else none
  else none

/-- Main body of the liquidity scorer node (Scorer_Liquidity v1.1):
daily 200-EMA bias and a pullback to the nearest unfilled 1h fair value
gap within one 1h ATR of price. Standard helpers are the
chronological-input family shared with the structure scorer. This scorer
has no volatility-spike veto. -/
def run (candleData : CandleBundle) (srData : SrData) : Sig :=
  let symbol := candleData.symbol
  let pipSize := (jsOrNull candleData.meta.pip_size).getD
    (if jsIncludes symbol "JPY" then 0.01 else 0.0001)
  if candleData.data_1h.length < 50 ∨ candleData.data_4h.length < 50 ∨
      candleData.data_daily.length < 200 then
    flatOut symbol "Not enough candle data" pipSize
  else
    let daily_ema_200 := ScorerStructure.calculateEMA candleData.data_daily.reverse 200
    let last_daily_price := (closesOf candleData.data_daily).headD 0
    let daily_200_ema := tq daily_ema_200 && last_daily_price > daily_ema_200.getD 0
    let atr_4h := ScorerStructure.calculateATR candleData.data_4h.reverse 14
    let atr_4h_norm := computeAtr4hNorm atr_4h candleData.hist_atr_4h
    let rsi_4h := ScorerStructure.calculateRSI candleData.data_4h.reverse 14
    let atr_1h := ScorerStructure.calculateATR candleData.data_1h.reverse 14
    let last_price := (closesOf candleData.data_1h).headD 0
    let atr_1h_value := atr_1h.getD 0
    let atr_1h_pips : ℚ :=
      if tq atr_1h ∧ pipSize ≠ 0 then ((jsRound (atr_1h_value / pipSize) : ℤ) : ℚ) else 20
    if ¬ tq atr_1h then
      flatOut symbol "Could not calculate 1H ATR" pipSize
    else
      let fvgs := findFVGs candleData.data_1h
      let slPips : ℚ := max 15 ((jsRound (atr_1h_pips * 1.5) : ℤ) : ℚ)
      let tpPipsDefault : ℚ := ((jsRound (slPips * 1.8) : ℤ) : ℚ)
      let entry := entryRule daily_200_ema fvgs last_price atr_1h_value pipSize
      let sig : Direction := match entry with | some e => e.1 | none => .flat
      let conf : ℚ := match entry with | some _ => 0.60 | none => 0
      let reason : String := match entry with | some e => e.2.1 | none => "No signal"
      let tpPips : ℚ := match entry with | some e => e.2.2 | none => tpPipsDefault
      normalizeOutput "liquidity"
        { symbol, signal := sig, confidence := conf,
          price := some last_price,
          recommendedSLPips := if sig ≠ .flat then some slPips else none,
          recommendedTPPips := if sig ≠ .flat then some tpPips else none,
          reason, signalType := "liquidity",
          indicators := some
            { rsi_4h := match rsi_4h with
                | some v => .val v
                | none => .null,
              atr_1h := atr_1h,
              daily_price_above_ema_200 := .val daily_200_ema,
              atr_4h_norm := match atr_4h_norm with
                | some v => .val v
                | none => .null,
              atr_1h_pips := some atr_1h_pips },
          sr_data := some srData, meta := some candleData.meta } pipSize

end ScorerLiquidity

namespace Confluence

/-- Regime volatility threshold of the confluence node. -/
def regimeVolatilityThreshold : ℚ := 0.7

/-- Technical scorer tags of the confluence node. -/
def TECHNICAL_SCORERS : List String := ["momentum", "reversion", "breakout"]

/-- Dynamic scorer tags of the confluence node. -/
def DYNAMIC_SCORERS : List String := ["vwap_bias", "liquidity", "market_structure"]

/-- Append a signal to its symbol group, or open a new group at the end
(JS object key insertion order is first-occurrence order). -/
def pushTo : List (String × List Sig) → String → Sig → List (String × List Sig)
  | [], sym, s => [(sym, [s])]
  | (k, arr) :: rest, sym, s =>
      if k = sym then (k, arr ++ [s]) :: rest
      else (k, arr) :: pushTo rest sym s

/-- One step of the grouping loop: items without a truthy symbol are
skipped. -/
def addItem (gs : List (String × List Sig)) (s : Sig) : List (String × List Sig) :=
  if s.symbol = "" then gs else pushTo gs s.symbol s

/-- Group the incoming signal items by symbol, preserving both the
first-occurrence order of symbols and the arrival order inside each
group. -/
def groupBySymbol (items : List Sig) : List (String × List Sig) :=
  items.foldl addItem []

/-- The catch branch of the per-symbol loop: a flat record whose reason
wraps the error message (it carries no confidence key). -/
def errFlat (symbol e : String) : AggOut :=
  { symbol, signal := .flat, reason := "VETO: Node error: " ++ e }

/-- Head of the stable JS sort by descending confidence (only index 0 is
read): the first signal attaining the maximal confidence. The empty case
is unreachable behind the nonempty check. -/
def bestOf : List Sig → Sig
  | [] => { symbol := "", signal := .flat, confidence := 0 }
  | x :: xs => xs.foldl (fun b a => if a.confidence > b.confidence then a else b) x

/-- Selection rule table of the confluence node (v1.3): with the trend,
take all buy (sell) signals when any technical-or-dynamic one exists,
else the counter-trend reversion fades; in a neutral low-volatility
regime take reversion-or-dynamic signals, buys first. Returns the
selected signals and the confluence reason. -/
def selectSignals (htf_trend : String) (buySignals sellSignals : List Sig) :
    List Sig × String :=
  let tech_buys := buySignals.any (fun s => TECHNICAL_SCORERS.contains s.signalType)
  let dynamic_buys := buySignals.any (fun s => DYNAMIC_SCORERS.contains s.signalType)
  let reversion_buys := buySignals.any (fun s => s.signalType == "reversion")
  let tech_sells := sellSignals.any (fun s => TECHNICAL_SCORERS.contains s.signalType)
  let dynamic_sells := sellSignals.any (fun s => DYNAMIC_SCORERS.contains s.signalType)
  let reversion_sells := sellSignals.any (fun s => s.signalType == "reversion")
  if htf_trend = "Up" then
    if tech_buys || dynamic_buys then
      let reasons := (if tech_buys then ["Technical"] else []) ++
        (if dynamic_buys then ["Dynamic"] else [])
      (buySignals, "Signal: " ++ String.intercalate " + " reasons ++ " BUYS (With Trend)")
    else if reversion_sells then
      (sellSignals.filter (fun s => s.signalType == "reversion"),
        "Signal: Reversion SELLS (Counter-Trend)")
    else ([], "No Buy Signals or Reversion Sells Found")
  else if htf_trend = "Down" then
    if tech_sells || dynamic_sells then
      let reasons := (if tech_sells then ["Technical"] else []) ++
        (if dynamic_sells then ["Dynamic"] else [])
      (sellSignals, "Signal: " ++ String.intercalate " + " reasons ++ " SELLS (With Trend)")
    else if reversion_buys then
      (buySignals.filter (fun s => s.signalType == "reversion"),
        "Signal: Reversion BUYS (Counter-Trend)")
    else ([], "No Sell Signals or Reversion Buys Found")
  else
    if reversion_buys || dynamic_buys then
      let reasons := (if reversion_buys then ["Reversion"] else []) ++
        (if dynamic_buys then ["Dynamic"] else [])
      (buySignals, "Signal: " ++ String.intercalate " + " reasons ++ " BUYS (Range)")
    else if reversion_sells || dynamic_sells then
      let reasons := (if reversion_sells then ["Reversion"] else []) ++
        (if dynamic_sells then ["Dynamic"] else [])
      (sellSignals, "Signal: " ++ String.intercalate " + " reasons ++ " SELLS (Range)")
    else ([], "Range. No Reversion or Dynamic signals.")

/-- Step 1 of the regime router: Up on a true daily-EMA flag, Down on
false, Neutral otherwise (unreachable behind the null check). -/
def htfTrendOf (j : JOpt Bool) : String :=
  match j with
  | .val true => "Up"
  | .val false => "Down"
  | _ => "Neutral"

/-- Numeric value of the normalized 4h ATR field (only read after the
null check). -/
def atrNormVal (j : JOpt ℚ) : ℚ :=
  match j with
  | .val a => a
  | _ => 0

/-- Tail of the per-symbol confluence body once selected signals exist:
confidence averaging (clamped at 1), stable-sort best-signal selection,
pip-size resolution and SL/TP price materialization. -/
def finishSymbol (symbol htf_trend : String) (filteredArr : List Sig)
    (confluenceReason : String) : AggOut :=
  let avgConfidence :=
    min 1 ((filteredArr.map Sig.confidence).sum / max 1 (filteredArr.length : ℚ))
  let bestSignal := bestOf filteredArr
  let meta := bestSignal.meta.getD {}
  let signal := bestSignal.signal
  let price := bestSignal.price
  let slPips := jsOrNull bestSignal.recommendedSLPips
  let tpPips := jsOrNull bestSignal.recommendedTPPips
  let pipSize : ℚ :=
    if tq meta.pip_size then meta.pip_size.getD 0
    else if symbol ≠ "" ∧ ¬ jsIncludes symbol "JPY" ∧ ¬ jsIncludes symbol "XAU" then
      0.0001
    else 0.01
  let sl_price : Option ℚ :=
    if signal == .buy ∧ tq price ∧ tq slPips then
      some (price.getD 0 - slPips.getD 0 * pipSize)
    else if signal == .sell ∧ tq price ∧ tq slPips then
      some (price.getD 0 + slPips.getD 0 * pipSize)
    else none
  let tp_price : Option ℚ :=
    if signal == .buy ∧ tq price ∧ tq tpPips then
      some (price.getD 0 + tpPips.getD 0 * pipSize)
    else if signal == .sell ∧ tq price ∧ tq tpPips then
      some (price.getD 0 - tpPips.getD 0 * pipSize)
    else none
  { symbol, signal, confidence := some avgConfidence, price,
    strategyType := some bestSignal.signalType,
    reason := confluenceReason, regime := some htf_trend,
    recommendedSLPips := slPips, recommendedTPPips := tpPips,
    sl_price, tp_price,
    indicators := bestSignal.indicators,
    sr_data := bestSignal.sr_data, meta := some meta }

/-- Per-symbol body of the confluence loop: regime router, absolute
veto, selection rule table, confidence averaging, best-signal selection
and SL/TP price materialization. Returns none only for an empty group
(the continue at the top of the loop, unreachable from grouping). -/
def processSymbol (symbol : String) (arr : List Sig) : Option AggOut :=
  if arr.isEmpty then none
  else
    let firstValidSignal := arr.find? (fun s =>
      match s.indicators with
      | some ind => ind.rsi_4h != JOpt.undef
      | none => false)
    match firstValidSignal with
    | none =>
        some { symbol, signal := .flat,
               reason := "VETO: No valid indicator data from any scorer." }
    | some fv =>
        let indicators := fv.indicators.getD {}
        if ¬ indicators.rsi_4h.isVal ∨ ¬ indicators.daily_price_above_ema_200.isVal ∨
            ¬ indicators.atr_4h_norm.isVal then
          some { symbol, signal := .flat,
                 reason := "VETO: Regime Router: Missing required indicator data (RSI, Daily EMA, ATR)." }
        else
          let htf_trend := htfTrendOf indicators.daily_price_above_ema_200
          let atr_4h_norm := atrNormVal indicators.atr_4h_norm
          let volatility : String :=
            if atr_4h_norm > regimeVolatilityThreshold then "High" else "Low"
          if htf_trend = "Neutral" ∧ volatility = "High" then
            some { symbol, signal := .flat, reason := "Regime: Veto. Volatile CHOP.",
                   regime := some htf_trend }
          else
            let buySignals := arr.filter (fun s => s.signal == .buy)
            let sellSignals := arr.filter (fun s => s.signal == .sell)
            let sel := selectSignals htf_trend buySignals sellSignals
            let filteredArr := sel.1
            let confluenceReason := sel.2
            if filteredArr.isEmpty then
              some { symbol, signal := .flat,
                     reason := "Regime: " ++ htf_trend ++ ". " ++ confluenceReason ++ ".",
                     regime := some htf_trend }
            else
              some (finishSymbol symbol htf_trend filteredArr confluenceReason)

/-- The confluence loop with its try/catch, abstracted over the
per-symbol body so the fault-isolation contract can be stated: a body
error for one symbol becomes that symbol's error-flat record and leaves
every other group untouched. -/
def confluenceWith (proc : String → List Sig → Except String (Option AggOut))
    (items : List Sig) : List AggOut :=
  (groupBySymbol items).flatMap (fun g =>
    match proc g.1 g.2 with
    | .ok (some o) => [o]
    | .ok none => []
    | .error e => [errFlat g.1 e])

/-- The confluence node itself: the loop instantiated with the real
per-symbol body, which is total (the catch branch is defensive). -/
def run (items : List Sig) : List AggOut :=
  confluenceWith (fun s arr => .ok (processSymbol s arr)) items

/-- Big-step evaluation relation of the per-symbol loop over an already
grouped batch: one rule per loop iteration (an output pushed, or a
skipped empty group). -/
inductive ProcList : List (String × List Sig) → List AggOut → Prop
  | nil : ProcList [] []
  | consSome {s : String} {arr : List Sig} {o : AggOut}
      {rest : List (String × List Sig)} {outs : List AggOut} :
      processSymbol s arr = some o → ProcList rest outs →
      ProcList ((s, arr) :: rest) (o :: outs)
  | consNone {s : String} {arr : List Sig}
      {rest : List (String × List Sig)} {outs : List AggOut} :
      processSymbol s arr = none → ProcList rest outs →
      ProcList ((s, arr) :: rest) outs

/-- Big-step evaluation relation of the whole confluence node: group the
incoming items, then run the loop. -/
def ConfAgg (items : List Sig) (outs : List AggOut) : Prop :=
  ProcList (groupBySymbol items) outs

end Confluence

/-! Concrete inputs used by the witnesses and counterexamples below. -/

/-- A candle with unit high-low range around the given close. -/
def constCandle (c : ℚ) : Candle :=
  { time := 0, high := c + 1 / 2, low := c - 1 / 2, close := c }

/-- Fifteen strictly increasing closes, newest first: every price change
is a gain, so the Wilder average loss is exactly 0 at the seed and at
every step. -/
def incCloses15 : List Candle :=
  ((List.range 15).map (fun j => constCandle (100 + j))).reverse

/-- A 15m series of 30 candles whose newest bar has range 10 while every
older bar has range 1: the newest range exceeds 3 times the 15m ATR. -/
def spike15 : List Candle :=
  { time := 0, high := 105, low := 95, close := 100 } :: List.replicate 29 (constCandle 100)

/-- Fifty rising 1h candles, newest first. -/
def rising1h : List Candle := ((List.range 50).map (fun j => constCandle (50 + j))).reverse

/-- Fifty rising 4h candles, newest first. -/
def rising4h : List Candle := ((List.range 50).map (fun j => constCandle (200 + j))).reverse

/-- Two hundred rising daily candles, newest first. -/
def risingDaily : List Candle := ((List.range 200).map (fun j => constCandle (1 + j))).reverse

/-- A candle bundle in a clean uptrend on every timeframe except that
the current 15m bar is a volatility spike. -/
def bundleSpike : CandleBundle :=
  { symbol := "XAUUSD", data_15m := spike15, data_1h := rising1h,
    data_4h := rising4h, data_daily := risingDaily,
    meta := { symbol := "XAUUSD", pip_size := some 0.01 } }

/-- Pivot data for bundleSpike: PDH between the two newest 1h closes so
the structure scorer sees a bullish break of structure. -/
def srSpike : SrData := { pivots := some {}, pdh := some (985 / 10), pdl := some 10 }

/-- A 15m series (50 candles, newest first) engineered for the
mean-reversion buy scenario: a long flat stretch, then the chronological
tail 92, 94, 92, 92, 84, 86. The 20-bar window has mean 97 and exact
standard deviation 5, so the lower band is 87 and the last close 86 sits
below it; the final small bounce leaves the Stochastic-RSI slow K
strictly between 0 and 20. -/
def mr15 : List Candle :=
  ((List.replicate 44 (constCandle 100)) ++
    [constCandle 92, constCandle 94, constCandle 92, constCandle 92,
     constCandle 84, constCandle 86]).reverse

/-- Fifty 4h candles alternating half a point up and down: directional
movement on both sides, ADX about 3.8 (ranging, nonzero). -/
def osc4h : List Candle :=
  ((List.range 50).map (fun j =>
    constCandle (200 + if j % 2 = 0 then (1 : ℚ) / 2 else 0))).reverse

/-- Thirty constant 1h candles: the 1h ATR is exactly 1. -/
def const1h : List Candle := List.replicate 30 (constCandle 100)

/-- The mean-reversion scenario bundle (ranging 4h regime, oversold 15m
below the lower band). -/
def bundleMR : CandleBundle :=
  { symbol := "XAUUSD", data_15m := mr15, data_1h := const1h, data_4h := osc4h,
    meta := { symbol := "XAUUSD", pip_size := some 0.01 } }

/-- Pivot data far away from the mean-reversion scenario price, so no
S/R confluence bonus applies. -/
def srMR : SrData :=
  { pivots := some { p := some 500, s1 := some 500, s2 := some 500, s3 := some 500,
                     r1 := some 500, r2 := some 500, r3 := some 500 },
    pdh := some 500, pdl := some 500 }

/-- Fifty constant 15m candles: every RSI value is identical, every raw
stochastic window has zero range, and the Stochastic-RSI slow K computes
to exactly 0. -/
def flat15 : List Candle := List.replicate 50 (constCandle 100)

/-- The falsy-zero bundle: identical to the mean-reversion scenario
bundle except that the 15m series makes the Stochastic-RSI K exactly 0. -/
def bundleK0 : CandleBundle :=
  { symbol := "XAUUSD", data_15m := flat15, data_1h := const1h, data_4h := osc4h,
    meta := { symbol := "XAUUSD", pip_size := some 0.01 } }

/-- A 15m series (30 candles) with a complete break-and-retest setup of
PDH = 100: the prior close 100.5 broke above, the current close 100.2
retests inside the quarter-ATR zone, and the 15m RSI is about 91.5. The
newest bar is stamped 18:00 UTC, outside both trading sessions. -/
def br15 : List Candle :=
  ({ time := 64800, high := 1007 / 10, low := 997 / 10, close := 1002 / 10 } ::
    (((List.range 28).map (fun j => constCandle (956 / 10 + (j : ℚ) / 10))) ++
      [constCandle (1005 / 10)]).reverse)

/-- Fifty-five rising 4h candles, newest first (long 4h bias for the
breakout scorer). -/
def rising4h55 : List Candle :=
  ((List.range 55).map (fun j => constCandle (200 + (j : ℚ) / 10))).reverse

/-- The break-and-retest bundle whose only failing gate is the session
filter (current 15m bar at 18:00 UTC). -/
def bundleBR : CandleBundle :=
  { symbol := "XAUUSD", data_15m := br15, data_1h := const1h, data_4h := rising4h55,
    meta := { symbol := "XAUUSD", pip_size := some 0.01 } }

/-- Pivot data for the break-and-retest bundle: PDH 100 (the broken
level), with R1/R2 available as take-profit targets. -/
def srBR : SrData :=
  { pivots := some { R1 := some 103, R2 := some 106, S1 := some 97 },
    pdh := some 100, pdl := some 50 }

/-- An aggregator input item carrying no indicator snapshot: the
confluence node emits its no-valid-indicator flat record, which carries
no confidence key. -/
def sigNoInd : Sig :=
  { symbol := "EURUSD", signal := .flat, confidence := 0, reason := "No signal" }

/-- The confluence output for sigNoInd: flat, confidence field absent. -/
def aggFlatNoConf : AggOut :=
  { symbol := "EURUSD", signal := .flat,
    reason := "VETO: No valid indicator data from any scorer." }

/-- A reversion buy signal of the shape the mean-reversion scorer emits:
a take-profit price but no take-profit pips, with a complete indicator
snapshot for the regime router. -/
def sigRev : Sig :=
  { symbol := "EURUSD", signal := .buy, confidence := 7 / 10,
    price := some (11 / 10),
    recommendedSLPips := some 150,
    recommendedTPPrice := some (12 / 10),
    reason := "15m Oversold (StochRSI < 20) + Below Lower BB",
    signalType := "reversion",
    indicators := some
      { rsi_4h := .val 50, daily_price_above_ema_200 := .val true,
        atr_4h_norm := .val (1 / 2) },
    meta := some { symbol := "EURUSD", pip_size := some (1 / 10000) } }

/-- A second-symbol item used to show per-symbol fault isolation. -/
def sigOther : Sig :=
  { symbol := "USDJPY", signal := .flat, confidence := 0, reason := "No signal" }

/-- The confluence output for the one-item batch of sigRev. -/
def aggRevOut : AggOut := (Confluence.processSymbol "EURUSD" [sigRev]).getD default

/-- A per-symbol body that throws on EURUSD and behaves like the real
body elsewhere (fault injection for the try/catch contract). -/
def procBoom : String → List Sig → Except String (Option AggOut) :=
  fun s arr => if s = "EURUSD" then .error "boom" else .ok (Confluence.processSymbol s arr)

/-- The confluence output for the USDJPY group of the fault-isolation
batch (a no-valid-indicator flat record). -/
def aggOtherOut : AggOut :=
  { symbol := "USDJPY", signal := .flat,
    reason := "VETO: No valid indicator data from any scorer." }

/-! Shared invariants and helper lemmas. -/

/-- The Signal invariant of the spec: a definite direction, confidence
inside the unit interval, and zero confidence whenever flat. -/
def SigInv (s : Sig) : Prop :=
  (s.signal = .buy ∨ s.signal = .sell ∨ s.signal = .flat) ∧
  0 ≤ s.confidence ∧ s.confidence ≤ 1 ∧ (s.signal = .flat → s.confidence = 0)

theorem scorerTrend_flatOut_inv (s r : String) (sr : SrData) :
    SigInv (ScorerTrend.flatOut s r sr) := by
  refine ⟨Or.inr (Or.inr rfl), le_refl 0, ?_, fun _ => rfl⟩
  show (0 : ℚ) ≤ 1
  norm_num

theorem scorerMeanReversion_flatOut_inv (s r : String) (sr : SrData) :
    SigInv (ScorerMeanReversion.flatOut s r sr) := by
  refine ⟨Or.inr (Or.inr rfl), le_refl 0, ?_, fun _ => rfl⟩
  show (0 : ℚ) ≤ 1
  norm_num

theorem scorerBreakout_flatOut_inv (s r : String) (sr : SrData) :
    SigInv (ScorerBreakout.flatOut s r sr) := by
  refine ⟨Or.inr (Or.inr rfl), le_refl 0, ?_, fun _ => rfl⟩
  show (0 : ℚ) ≤ 1
  norm_num

theorem scorerTrend_entryRule_dir (h : Bool) (p e r15 r4 : ℚ)
    (d : Direction) (b : ℚ) (t s : String)
    (heq : ScorerTrend.entryRule h p e r15 r4 = some (d, b, t, s)) :
    d = .buy ∨ d = .sell := by
  unfold ScorerTrend.entryRule at heq
  split_ifs at heq <;> simp_all

theorem scorerMeanReversion_entryRule_dir (a b c d e f g : Bool)
    (dir : Direction) (q : ℚ) (s : String)
    (heq : ScorerMeanReversion.entryRule a b c d e f g = some (dir, q, s)) :
    dir = .buy ∨ dir = .sell := by
  unfold ScorerMeanReversion.entryRule at heq
  split_ifs at heq <;> simp_all

theorem normalizeOutput_conf (t : String) (out : Sig) (p : ℚ) :
    (normalizeOutput t out p).confidence = max 0 (min 1 out.confidence) := rfl

theorem normalizeOutput_signal (t : String) (out : Sig) (p : ℚ) :
    (normalizeOutput t out p).signal = out.signal := rfl

theorem scorerTrend_finish_inv (symbol : String) (srData : SrData) (meta : Meta)
    (pipSize : ℚ) (inds : Indicators) (p a z : ℚ) (sup res : List ℚ)
    (dir : Direction) (b : ℚ) (t r : String) (hdir : dir = .buy ∨ dir = .sell) :
    SigInv (ScorerTrend.finish symbol srData meta pipSize inds p a z sup res dir b t r) := by
  simp only [ScorerTrend.finish]
  by_cases hveto :
      min 1 (ScorerTrend.srAdjust (dir == Direction.buy) p z sup res b r).1 < 0.1
  · rw [if_pos hveto]
    exact scorerTrend_flatOut_inv _ _ _
  · rw [if_neg hveto]
    refine ⟨?_, ?_, ?_, ?_⟩
    · rcases hdir with h | h <;> subst h
      · exact Or.inl rfl
      · exact Or.inr (Or.inl rfl)
    · exact le_trans (by norm_num : (0 : ℚ) ≤ 0.1) (le_of_not_lt hveto)
    · exact min_le_left _ _
    · intro hflat
      rcases hdir with h | h <;> subst h <;> exact Direction.noConfusion hflat

theorem normalized_inv (t : String) (out : Sig) (p : ℚ)
    (hdir : out.signal = .buy ∨ out.signal = .sell ∨ out.signal = .flat)
    (hflat : out.signal = .flat → out.confidence = 0) :
    SigInv (normalizeOutput t out p) := by
  refine ⟨?_, ?_, ?_, ?_⟩
  · simpa [normalizeOutput_signal] using hdir
  · rw [normalizeOutput_conf]
    exact le_max_left _ _
  · rw [normalizeOutput_conf]
    exact max_le (by norm_num) (min_le_left _ _)
  · intro h
    rw [normalizeOutput_conf]
    rw [normalizeOutput_signal] at h
    rw [hflat h]
    norm_num

theorem scorerStructure_flatOut_inv (s r : String) (p : ℚ) :
    SigInv (ScorerStructure.flatOut s r p) :=
  normalized_inv _ _ _ (Or.inr (Or.inr rfl)) (fun _ => rfl)

theorem scorerVWAP_flatOut_inv (s r : String) (p : ℚ) :
    SigInv (ScorerVWAP.flatOut s r p) :=
  normalized_inv _ _ _ (Or.inr (Or.inr rfl)) (fun _ => rfl)

theorem scorerLiquidity_flatOut_inv (s r : String) (p : ℚ) :
    SigInv (ScorerLiquidity.flatOut s r p) :=
  normalized_inv _ _ _ (Or.inr (Or.inr rfl)) (fun _ => rfl)

theorem scorerStructure_entryRule_dir (a : Bool) (b c d e f : ℚ)
    (g : Direction × ℚ × String)
    (heq : ScorerStructure.entryRule a b c d e f = some g) :
    g.1 = .buy ∨ g.1 = .sell := by
  unfold ScorerStructure.entryRule at heq
  split_ifs at heq <;> (rw [Option.some_inj] at heq; subst heq; simp)

theorem scorerVWAP_entryRule_dir (a : Bool) (b c d e : ℚ)
    (g : Direction × String)
    (heq : ScorerVWAP.entryRule a b c d e = some g) :
    g.1 = .buy ∨ g.1 = .sell := by
  unfold ScorerVWAP.entryRule at heq
  split_ifs at heq <;> (rw [Option.some_inj] at heq; subst heq; simp)

theorem scorerLiquidity_entryRule_dir (a : Bool) (f : List FVG × List FVG)
    (b c d : ℚ) (g : Direction × String × ℚ)
    (heq : ScorerLiquidity.entryRule a f b c d = some g) :
    g.1 = .buy ∨ g.1 = .sell := by
  simp only [ScorerLiquidity.entryRule] at heq
  repeat' split at heq
  all_goals try exact Option.noConfusion heq
  all_goals (rw [Option.some_inj] at heq; subst heq; simp)

theorem scorerBreakout_entryRule_dir (bias : Option Bool) (hl : Bool)
    (a b c d e f : ℚ) (g : Direction × String)
    (heq : ScorerBreakout.entryRule bias hl a b c d e f = some g) :
    g.1 = .buy ∨ g.1 = .sell := by
  unfold ScorerBreakout.entryRule at heq
  split_ifs at heq <;> (rw [Option.some_inj] at heq; subst heq; simp)

theorem scorerTrend_inv (i : CandleBundle) (sr : SrData) :
    SigInv (ScorerTrend.run i sr) := by
  simp only [ScorerTrend.run]
  repeat' split
  all_goals try exact scorerTrend_flatOut_inv _ _ _
  all_goals
    exact scorerTrend_finish_inv _ _ _ _ _ _ _ _ _ _ _ _ _ _
      (scorerTrend_entryRule_dir _ _ _ _ _ _ _ _ _ (by assumption))

theorem scorerMeanReversion_finish_inv (symbol : String) (srData : SrData)
    (meta : Meta) (pipSize : ℚ) (inds : Indicators) (cp a : ℚ) (bbm : Option ℚ)
    (dir : Direction) (cRaw : ℚ) (r : String) (hdir : dir = .buy ∨ dir = .sell) :
    SigInv (ScorerMeanReversion.finish symbol srData meta pipSize inds cp a bbm dir cRaw r) := by
  simp only [ScorerMeanReversion.finish]
  by_cases hveto : min 1 cRaw < 0.30
  · rw [if_pos hveto]
    exact scorerMeanReversion_flatOut_inv _ _ _
  · rw [if_neg hveto]
    refine ⟨?_, ?_, ?_, ?_⟩
    · rcases hdir with h | h <;> subst h
      · exact Or.inl rfl
      · exact Or.inr (Or.inl rfl)
    · exact le_trans (by norm_num : (0 : ℚ) ≤ 0.30) (le_of_not_lt hveto)
    · exact min_le_left _ _
    · intro hflat
      rcases hdir with h | h <;> subst h <;> exact Direction.noConfusion hflat

theorem scorerMeanReversion_inv (i : CandleBundle) (sr : SrData) :
    SigInv (ScorerMeanReversion.run i sr) := by
  simp only [ScorerMeanReversion.run]
  repeat' split
  all_goals try exact scorerMeanReversion_flatOut_inv _ _ _
  all_goals
    exact scorerMeanReversion_finish_inv _ _ _ _ _ _ _ _ _ _ _
      (scorerMeanReversion_entryRule_dir _ _ _ _ _ _ _ _ _ _ (by assumption))

theorem scorerBreakout_inv (i : CandleBundle) (sr : SrData) :
    SigInv (ScorerBreakout.run i sr) := by
  simp only [ScorerBreakout.run]
  repeat' split
  all_goals try exact scorerBreakout_flatOut_inv _ _ _
  all_goals
    (have hd : _ ∨ _ := scorerBreakout_entryRule_dir _ _ _ _ _ _ _ _ _ (by assumption)
     refine ⟨?_, ?_, ?_, ?_⟩
     · exact hd.elim (fun h => Or.inl h) (fun h => Or.inr (Or.inl h))
     · show (0 : ℚ) ≤ 0.85
       norm_num
     · show (0.85 : ℚ) ≤ 1
       norm_num
     · intro hflat
       rcases hd with h | h <;> exact Direction.noConfusion (h.symm.trans hflat))

theorem scorerStructure_inv (i : CandleBundle) (sr : SrData) :
    SigInv (ScorerStructure.run i sr) := by
  simp only [ScorerStructure.run]
  repeat' split
  all_goals try exact scorerStructure_flatOut_inv _ _ _
  all_goals try exact normalized_inv _ _ _ (Or.inr (Or.inr rfl)) (fun _ => rfl)
  all_goals
    (have hd : _ ∨ _ := scorerStructure_entryRule_dir _ _ _ _ _ _ _ (by assumption)
     exact normalized_inv _ _ _
       (hd.elim (fun h => Or.inl h) (fun h => Or.inr (Or.inl h)))
       (fun hflat => by
         rcases hd with h | h <;> exact Direction.noConfusion (h.symm.trans hflat)))

theorem scorerVWAP_inv (i : CandleBundle) (sr : SrData) :
    SigInv (ScorerVWAP.run i sr) := by
  simp only [ScorerVWAP.run]
  repeat' split
  all_goals try exact scorerVWAP_flatOut_inv _ _ _
  all_goals try exact normalized_inv _ _ _ (Or.inr (Or.inr rfl)) (fun _ => rfl)
  all_goals
    (have hd : _ ∨ _ := scorerVWAP_entryRule_dir _ _ _ _ _ _ (by assumption)
     exact normalized_inv _ _ _
       (hd.elim (fun h => Or.inl h) (fun h => Or.inr (Or.inl h)))
       (fun hflat => by
         rcases hd with h | h <;> exact Direction.noConfusion (h.symm.trans hflat)))

theorem mem_pushTo (gs : List (String × List Sig)) (k : String) (s : Sig)
    (sym : String) (arr : List Sig)
    (h : (sym, arr) ∈ Confluence.pushTo gs k s) (x : Sig) (hx : x ∈ arr) :
    (∃ arr0, (sym, arr0) ∈ gs ∧ x ∈ arr0) ∨ x = s := by
  induction gs with
  | nil =>
      simp only [Confluence.pushTo, List.mem_singleton] at h
      obtain ⟨h1, h2⟩ := Prod.mk.injEq .. ▸ h
      subst h2
      rcases List.mem_singleton.mp hx with rfl
      exact Or.inr rfl
  | cons g rest ih =>
      obtain ⟨k0, arr0⟩ := g
      simp only [Confluence.pushTo] at h
      split_ifs at h with hk
      · rcases List.mem_cons.mp h with hh | hh
        · obtain ⟨h1, h2⟩ := Prod.mk.injEq .. ▸ hh
          subst h2
          rcases List.mem_append.mp hx with hx1 | hx1
          · exact Or.inl ⟨arr0, by simp [h1.symm], hx1⟩
          · exact Or.inr (List.mem_singleton.mp hx1)
        · exact Or.inl ⟨arr, List.mem_cons_of_mem _ hh, hx⟩
      · rcases List.mem_cons.mp h with hh | hh
        · exact Or.inl ⟨arr, List.mem_cons.mpr (Or.inl hh), hx⟩
        · rcases ih hh with ⟨arr1, h1, hx1⟩ | rfl
          · exact Or.inl ⟨arr1, List.mem_cons_of_mem _ h1, hx1⟩
          · exact Or.inr rfl

theorem mem_foldl_addItem (items : List Sig) :
    ∀ (gs : List (String × List Sig)) (sym : String) (arr : List Sig),
      (sym, arr) ∈ items.foldl Confluence.addItem gs →
      ∀ x ∈ arr, x ∈ items ∨ ∃ arr0, (sym, arr0) ∈ gs ∧ x ∈ arr0 := by
  induction items with
  | nil =>
      intro gs sym arr h x hx
      exact Or.inr ⟨arr, h, hx⟩
  | cons it rest ih =>
      intro gs sym arr h x hx
      rcases ih (Confluence.addItem gs it) sym arr h x hx with hmem | ⟨arr0, hmem, hx0⟩
      · exact Or.inl (List.mem_cons_of_mem _ hmem)
      · unfold Confluence.addItem at hmem
        split_ifs at hmem
        · exact Or.inr ⟨arr0, hmem, hx0⟩
        · rcases mem_pushTo _ _ _ _ _ hmem x hx0 with ⟨arr1, h1, hx1⟩ | rfl
          · exact Or.inr ⟨arr1, h1, hx1⟩
          · exact Or.inl (List.mem_cons_self _ _)

theorem mem_groupBySymbol (items : List Sig) (sym : String) (arr : List Sig)
    (h : (sym, arr) ∈ Confluence.groupBySymbol items) :
    ∀ x ∈ arr, x ∈ items := by
  intro x hx
  rcases mem_foldl_addItem items [] sym arr h x hx with hm | ⟨arr0, hm, _⟩
  · exact hm
  · exact absurd hm (List.not_mem_nil _)

theorem selectSignals_sub (t : String) (bs ss : List Sig) (x : Sig)
    (hx : x ∈ (Confluence.selectSignals t bs ss).1) : x ∈ bs ∨ x ∈ ss := by
  simp only [Confluence.selectSignals] at hx
  split_ifs at hx <;>
    first
      | exact Or.inl hx
      | exact Or.inr hx
      | exact Or.inl (List.mem_of_mem_filter hx)
      | exact Or.inr (List.mem_of_mem_filter hx)
      | simp at hx

theorem foldl_best_mem (pick : Sig → Sig → Sig)
    (hpick : ∀ b a, pick b a = a ∨ pick b a = b) :
    ∀ (xs : List Sig) (acc : Sig), xs.foldl pick acc = acc ∨ xs.foldl pick acc ∈ xs := by
  intro xs
  induction xs with
  | nil => intro acc; exact Or.inl rfl
  | cons y ys ih =>
      intro acc
      simp only [List.foldl_cons]
      rcases ih (pick acc y) with h | h
      · rcases hpick acc y with h2 | h2
        · refine Or.inr ?_
          rw [h, h2]
          exact List.mem_cons_self _ _
        · exact Or.inl (h.trans h2)
      · exact Or.inr (List.mem_cons_of_mem _ h)

theorem bestOf_mem (l : List Sig) (h : ¬ l.isEmpty = true) :
    Confluence.bestOf l ∈ l := by
  cases l with
  | nil => simp at h
  | cons x xs =>
      have hp : ∀ (b a : Sig), (if a.confidence > b.confidence then a else b) = a ∨
          (if a.confidence > b.confidence then a else b) = b := by
        intro b a
        split_ifs <;> simp
      have hb : Confluence.bestOf (x :: xs) =
          xs.foldl (fun b a => if a.confidence > b.confidence then a else b) x := rfl
      rcases foldl_best_mem _ hp xs x with h2 | h2
      · rw [hb, h2]
        exact List.mem_cons_self _ _
      · rw [hb]
        exact List.mem_cons_of_mem _ h2

theorem finishSymbol_signal (symbol htf : String) (F : List Sig) (cr : String) :
    (Confluence.finishSymbol symbol htf F cr).signal = (Confluence.bestOf F).signal := rfl

theorem finishSymbol_conf (symbol htf : String) (F : List Sig) (cr : String) :
    (Confluence.finishSymbol symbol htf F cr).confidence =
      some (min 1 ((F.map Sig.confidence).sum / max 1 (F.length : ℚ))) := rfl

theorem finishSymbol_out (symbol htf : String) (F : List Sig) (cr : String)
    (hne : ¬ F.isEmpty = true)
    (hconf : ∀ x ∈ F, 0 ≤ x.confidence)
    (hdir : ∀ x ∈ F, x.signal = .buy ∨ x.signal = .sell) :
    (Confluence.finishSymbol symbol htf F cr).signal ≠ .flat ∧
    ∃ c, (Confluence.finishSymbol symbol htf F cr).confidence = some c ∧
      0 ≤ c ∧ c ≤ 1 := by
  constructor
  · rw [finishSymbol_signal]
    rcases hdir _ (bestOf_mem F hne) with h | h <;> rw [h] <;> exact Direction.noConfusion
  · refine ⟨_, finishSymbol_conf .., ?_, min_le_left _ _⟩
    refine le_min (by norm_num) (div_nonneg ?_ ?_)
    · refine List.sum_nonneg ?_
      intro y hy
      rcases List.mem_map.mp hy with ⟨x, hxF, rfl⟩
      exact hconf x hxF
    · exact le_trans zero_le_one (le_max_left _ _)

theorem finishSymbol_tp (symbol htf : String) (F : List Sig) (cr : String)
    (hb : (Confluence.bestOf F).recommendedTPPips = none) :
    (Confluence.finishSymbol symbol htf F cr).tp_price = none ∧
    (Confluence.finishSymbol symbol htf F cr).recommendedTPPips = none := by
  constructor
  · show (if _ ∧ _ ∧ tq (jsOrNull (Confluence.bestOf F).recommendedTPPips) = true then _
      else if _ ∧ _ ∧ tq (jsOrNull (Confluence.bestOf F).recommendedTPPips) = true then _
      else none) = none
    rw [hb]
    simp [jsOrNull, tq]
  · show jsOrNull (Confluence.bestOf F).recommendedTPPips = none
    rw [hb]
    rfl

theorem mem_selected_buy_or_sell (t : String) (arr : List Sig) (x : Sig)
    (hx : x ∈ (Confluence.selectSignals t
      (arr.filter (fun s => s.signal == Direction.buy))
      (arr.filter (fun s => s.signal == Direction.sell))).1) :
    (x ∈ arr ∧ (x.signal = .buy ∨ x.signal = .sell)) := by
  rcases selectSignals_sub _ _ _ _ hx with h | h
  · exact ⟨List.mem_of_mem_filter h,
      Or.inl (by simpa using List.of_mem_filter h)⟩
  · exact ⟨List.mem_of_mem_filter h,
      Or.inr (by simpa using List.of_mem_filter h)⟩

theorem processSymbol_out (sym : String) (arr : List Sig) (o : AggOut)
    (hconf : ∀ s ∈ arr, 0 ≤ s.confidence)
    (heq : Confluence.processSymbol sym arr = some o) :
    (o.signal = .flat → o.confidence = none) ∧
    (o.signal ≠ .flat → ∃ c, o.confidence = some c ∧ 0 ≤ c ∧ c ≤ 1) := by
  simp only [Confluence.processSymbol] at heq
  repeat' split at heq
  all_goals try exact Option.noConfusion heq
  all_goals rw [Option.some_inj] at heq
  all_goals subst heq
  all_goals try exact ⟨fun _ => rfl, fun hne => absurd rfl hne⟩
  all_goals
    (refine ⟨fun hflat => absurd hflat ?_, fun _ => ?_⟩
     · exact (finishSymbol_out _ _ _ _ (by assumption)
         (fun x hx => hconf x (mem_selected_buy_or_sell _ _ _ hx).1)
         (fun x hx => (mem_selected_buy_or_sell _ _ _ hx).2)).1
     · exact (finishSymbol_out _ _ _ _ (by assumption)
         (fun x hx => hconf x (mem_selected_buy_or_sell _ _ _ hx).1)
         (fun x hx => (mem_selected_buy_or_sell _ _ _ hx).2)).2)

theorem scorerLiquidity_inv (i : CandleBundle) (sr : SrData) :
    SigInv (ScorerLiquidity.run i sr) := by
  simp only [ScorerLiquidity.run]
  repeat' split
  all_goals try exact scorerLiquidity_flatOut_inv _ _ _
  all_goals try exact normalized_inv _ _ _ (Or.inr (Or.inr rfl)) (fun _ => rfl)
  all_goals
    (have hd : _ ∨ _ := scorerLiquidity_entryRule_dir _ _ _ _ _ _ (by assumption)
     exact normalized_inv _ _ _
       (hd.elim (fun h => Or.inl h) (fun h => Or.inr (Or.inl h)))
       (fun hflat => by
         rcases hd with h | h <;> exact Direction.noConfusion (h.symm.trans hflat)))

theorem mem_run (items : List Sig) (o : AggOut) (h : o ∈ Confluence.run items) :
    ∃ g ∈ Confluence.groupBySymbol items,
      Confluence.processSymbol g.1 g.2 = some o := by
  simp only [Confluence.run, Confluence.confluenceWith] at h
  rcases List.mem_flatMap.mp h with ⟨g, hg, ho⟩
  refine ⟨g, hg, ?_⟩
  rcases heq : Confluence.processSymbol g.1 g.2 with _ | o2
  · rw [heq] at ho
    simp at ho
  · rw [heq] at ho
    simp at ho
    rw [ho]

theorem procList_det (g : List (String × List Sig)) (o1 o2 : List AggOut)
    (h1 : Confluence.ProcList g o1) (h2 : Confluence.ProcList g o2) : o1 = o2 := by
  induction h1 generalizing o2 with
  | nil =>
      cases h2
      rfl
  | consSome hp _ ih =>
      cases h2 with
      | consSome hp2 hr2 =>
          rw [hp] at hp2
          rw [Option.some_inj.mp hp2]
          rw [ih _ hr2]
      | consNone hn _ =>
          rw [hp] at hn
          exact Option.noConfusion hn
  | consNone hn _ ih =>
      cases h2 with
      | consSome hp2 _ =>
          rw [hp2] at hn
          exact Option.noConfusion hn
      | consNone _ hr2 =>
          exact ih _ hr2

/-- C1 (amended): every Signal emitted by any of the six scorers has a
direction that is exactly one of buy, sell or flat, confidence in [0,1],
and zero confidence whenever flat; the Confluence Aggregator makes its
directional outputs carry a confidence in [0,1] whenever every input
item confidence lies in [0,1], but its flat outputs omit the confidence
field entirely instead of carrying 0. -/
theorem c1_signal_invariants :
    (∀ i sr, SigInv (ScorerTrend.run i sr)) ∧
    (∀ i sr, SigInv (ScorerMeanReversion.run i sr)) ∧
    (∀ i sr, SigInv (ScorerStructure.run i sr)) ∧
    (∀ i sr, SigInv (ScorerBreakout.run i sr)) ∧
    (∀ i sr, SigInv (ScorerVWAP.run i sr)) ∧
    (∀ i sr, SigInv (ScorerLiquidity.run i sr)) ∧
    (∀ items : List Sig, (∀ s ∈ items, 0 ≤ s.confidence ∧ s.confidence ≤ 1) →
      ∀ o ∈ Confluence.run items,
        (o.signal = .flat → o.confidence = none) ∧
        (o.signal ≠ .flat → ∃ c, o.confidence = some c ∧ 0 ≤ c ∧ c ≤ 1)) := by
  refine ⟨scorerTrend_inv, scorerMeanReversion_inv, scorerStructure_inv,
    scorerBreakout_inv, scorerVWAP_inv, scorerLiquidity_inv, ?_⟩
  intro items hb o ho
  rcases mem_run items o ho with ⟨g, hg, heq⟩
  exact processSymbol_out g.1 g.2 o
    (fun s hs => (hb s (mem_groupBySymbol items g.1 g.2 (Prod.mk.eta ▸ hg) s hs)).1) heq

/-- C1 counterexample: on a batch holding one signal without an
indicator snapshot, the Aggregator emits a flat record whose confidence
field is absent (undefined), not 0, so the claim as stated fails for the
Aggregator. -/
theorem c1_counterexample :
    Confluence.run [sigNoInd] = [aggFlatNoConf] ∧
    aggFlatNoConf.signal = .flat ∧ aggFlatNoConf.confidence = none := by
  refine ⟨by decide, rfl, rfl⟩

set_option maxRecDepth 100000 in
unseal Rat.add Rat.mul Rat.inv Rat.sub Rat.ofScientific in
/-- C1 witness: the amended theorem applied at concrete inputs (the
spike bundle for a scorer, and a one-signal batch for the Aggregator,
whose directional output carries confidence 0.7). -/
theorem c1_witness :
    SigInv (ScorerTrend.run bundleSpike srSpike) ∧
    aggRevOut ∈ Confluence.run [sigRev] ∧ aggRevOut.signal ≠ .flat ∧
    ∃ c, aggRevOut.confidence = some c ∧ 0 ≤ c ∧ c ≤ 1 := by
  obtain ⟨h1, _, _, _, _, _, h7⟩ := c1_signal_invariants
  have hm : aggRevOut ∈ Confluence.run [sigRev] := by decide
  have hs : aggRevOut.signal ≠ .flat := by decide
  exact ⟨h1 bundleSpike srSpike, hm, hs, (h7 [sigRev] (by decide) aggRevOut hm).2 hs⟩

/-- C4: per-symbol fault isolation of the confluence loop. For any
per-symbol body and any batch, if the body throws on one symbol group,
the loop still emits that symbol's record as a flat Signal whose reason
wraps the error message, and every other successfully processed group
still contributes its output. -/
theorem c4_fault_isolation
    (proc : String → List Sig → Except String (Option AggOut))
    (items : List Sig) (sym : String) (arr : List Sig) (e : String)
    (hg : (sym, arr) ∈ Confluence.groupBySymbol items)
    (herr : proc sym arr = .error e) :
    (Confluence.errFlat sym e ∈ Confluence.confluenceWith proc items ∧
      (Confluence.errFlat sym e).signal = .flat ∧
      (Confluence.errFlat sym e).reason = "VETO: Node error: " ++ e) ∧
    (∀ sym2 arr2 o2, (sym2, arr2) ∈ Confluence.groupBySymbol items →
      proc sym2 arr2 = .ok (some o2) →
      o2 ∈ Confluence.confluenceWith proc items) := by
  constructor
  · refine ⟨?_, rfl, rfl⟩
    simp only [Confluence.confluenceWith]
    refine List.mem_flatMap.mpr ⟨(sym, arr), hg, ?_⟩
    rw [herr]
    exact List.mem_singleton.mpr rfl
  · intro sym2 arr2 o2 hg2 hok
    simp only [Confluence.confluenceWith]
    refine List.mem_flatMap.mpr ⟨(sym2, arr2), hg2, ?_⟩
    rw [hok]
    exact List.mem_singleton.mpr rfl

/-- C4 witness: the isolation theorem applied to a two-symbol batch with
a body that throws on the first symbol only: the first symbol degrades
to its error-flat record and the second still produces its output. -/
theorem c4_witness :
    Confluence.errFlat "EURUSD" "boom" ∈
      Confluence.confluenceWith procBoom [sigNoInd, sigOther] ∧
    aggOtherOut ∈ Confluence.confluenceWith procBoom [sigNoInd, sigOther] := by
  have h := c4_fault_isolation procBoom [sigNoInd, sigOther] "EURUSD" [sigNoInd]
    "boom" (by decide) (by rfl)
  exact ⟨h.1.1, h.2 "USDJPY" [sigOther] aggOtherOut (by decide) (by rfl)⟩

/-- C9: whenever the highest-confidence selected signal of a symbol
group (the bestOf of the list the selection table keeps) carries no
recommendedTPPips, the confluence tail emits a record with a null
tp_price and a null recommendedTPPips; every Aggregator output either
already has both null (the flat paths) or is exactly that tail applied
to the batch selection, so the property covers every batch, mixed ones
included; and the mean-reversion and break-and-retest scorers indeed
never set recommendedTPPips (they emit only a recommendedTPPrice). -/
theorem c9_tp_price_null :
    (∀ sym htf F cr, (Confluence.bestOf F).recommendedTPPips = none →
      (Confluence.finishSymbol sym htf F cr).tp_price = none ∧
      (Confluence.finishSymbol sym htf F cr).recommendedTPPips = none) ∧
    (∀ sym arr o, Confluence.processSymbol sym arr = some o →
      (o.recommendedTPPips = none ∧ o.tp_price = none) ∨
      ∃ htf, o = Confluence.finishSymbol sym htf
        (Confluence.selectSignals htf
          (arr.filter (fun s => s.signal == Direction.buy))
          (arr.filter (fun s => s.signal == Direction.sell))).1
        (Confluence.selectSignals htf
          (arr.filter (fun s => s.signal == Direction.buy))
          (arr.filter (fun s => s.signal == Direction.sell))).2) ∧
    (∀ i sr, (ScorerMeanReversion.run i sr).recommendedTPPips = none) ∧
    (∀ i sr, (ScorerBreakout.run i sr).recommendedTPPips = none) := by
  refine ⟨?_, ?_, ?_, ?_⟩
  · intro sym htf F cr hb
    exact finishSymbol_tp sym htf F cr hb
  · intro sym arr o heq
    simp only [Confluence.processSymbol] at heq
    repeat' split at heq
    all_goals try exact Option.noConfusion heq
    all_goals rw [Option.some_inj] at heq
    all_goals subst heq
    all_goals try exact Or.inl ⟨rfl, rfl⟩
    all_goals exact Or.inr ⟨_, rfl⟩
  · intro i sr
    simp only [ScorerMeanReversion.run, ScorerMeanReversion.finish]
    repeat' split
    all_goals rfl
  · intro i sr
    simp only [ScorerBreakout.run]
    repeat' split
    all_goals rfl

set_option maxRecDepth 100000 in
unseal Rat.add Rat.mul Rat.inv Rat.sub Rat.ofScientific in
/-- C9 witness: a one-item batch whose only (and hence best) selected
signal is a reversion buy carrying a take-profit price but no take-profit
pips; the aggregator output is the confluence tail on that selection and
has tp_price null while its sl_price is materialized. -/
theorem c9_witness :
    sigRev.recommendedTPPrice = some (12 / 10) ∧
    aggRevOut = Confluence.finishSymbol "EURUSD" "Up" [sigRev]
      "Signal: Technical BUYS (With Trend)" ∧
    aggRevOut.recommendedTPPips = none ∧ aggRevOut.tp_price = none ∧
    aggRevOut.sl_price = some (217 / 200) := by
  have h1 := c9_tp_price_null.1 "EURUSD" "Up" [sigRev]
    "Signal: Technical BUYS (With Trend)" (by decide)
  have he : aggRevOut = Confluence.finishSymbol "EURUSD" "Up" [sigRev]
      "Signal: Technical BUYS (With Trend)" := by decide
  refine ⟨rfl, he, ?_, ?_, by decide⟩
  · rw [he]
    exact h1.2
  · rw [he]
    exact h1.1

set_option maxRecDepth 100000 in
unseal Rat.add Rat.mul Rat.inv Rat.sub Rat.ofScientific in
/-- C3 (code bug): on fifteen strictly increasing closes the Wilder
average loss is exactly 0; the trend, structure and breakout RSI
variants then return 100, but the mean-reversion variant substitutes
rs = 100 into the formula and returns 10000/101 (about 99.01), not
100. -/
theorem c3_rsi_zero_loss :
    seedLoss 14 ((deltasOf ((closesOf incCloses15).reverse)).take 14) = 0 ∧
    (ScorerTrend.calculateRSI incCloses15 14).rsi = 100 ∧
    ScorerStructure.calculateRSI incCloses15.reverse 14 = some 100 ∧
    ScorerBreakout.calculateRSI incCloses15 14 = some 100 ∧
    (ScorerMeanReversion.calculateRSI incCloses15 14).rsi = 10000 / 101 ∧
    ((10000 : ℚ) / 101 ≠ 100) := by
  refine ⟨by decide, by decide, by decide, by decide, by decide, by decide⟩

/-- C10: whenever the 15m Stochastic-RSI slow K computes to exactly 0
and the data-length gate passes, the mean-reversion scorer returns the
indicator-failure flat Signal (the falsy-zero guard treats 0 as a
missing indicator) instead of evaluating the oversold entry. -/
theorem c10_falsy_stoch_zero (i : CandleBundle) (sr : SrData)
    (hlen : ¬ (i.data_4h.length < 50 ∨ i.data_15m.length < 50 ∨
      i.data_1h.length < 30 ∨ sr.pivots = none))
    (hk : (ScorerMeanReversion.calculateStochasticRSI i.data_15m 14 14 3 3).k = some 0) :
    (ScorerMeanReversion.run i sr).signal = .flat ∧
    (ScorerMeanReversion.run i sr).reason = "Indicator calculation failed, not enough data." ∧
    (ScorerMeanReversion.run i sr).confidence = 0 := by
  simp only [ScorerMeanReversion.run]
  rw [if_neg hlen, if_pos]
  · exact ⟨rfl, rfl, rfl⟩
  · refine Or.inr (Or.inl ?_)
    rw [hk]
    decide

set_option maxRecDepth 100000 in
unseal Rat.add Rat.mul Rat.inv Rat.sub Rat.ofScientific in
/-- C10 witness: fifty constant 15m candles make the slow K exactly 0,
and the scorer reports the indicator failure. -/
theorem c10_witness :
    (ScorerMeanReversion.calculateStochasticRSI bundleK0.data_15m 14 14 3 3).k = some 0 ∧
    (ScorerMeanReversion.run bundleK0 srMR).signal = .flat ∧
    (ScorerMeanReversion.run bundleK0 srMR).reason =
      "Indicator calculation failed, not enough data." := by
  have h := c10_falsy_stoch_zero bundleK0 srMR (by decide) (by decide)
  exact ⟨by decide, h.1, h.2.1⟩

theorem scorerBreakout_entryRule_none (bias : Option Bool)
    (a b c d e f : ℚ) :
    ScorerBreakout.entryRule bias false a b c d e f = none := by
  unfold ScorerBreakout.entryRule
  split_ifs <;> simp_all

/-- C5: whenever the current 15m bar timestamp falls outside both UTC
session windows 07-10 and 12-15, the breakout scorer returns a flat
Signal, regardless of every other condition. -/
theorem c5_session_filter (i : CandleBundle) (sr : SrData)
    (hout : ¬ ((7 ≤ ScorerBreakout.utcHour (i.data_15m.headD default).time ∧
        ScorerBreakout.utcHour (i.data_15m.headD default).time ≤ 10) ∨
      (12 ≤ ScorerBreakout.utcHour (i.data_15m.headD default).time ∧
        ScorerBreakout.utcHour (i.data_15m.headD default).time ≤ 15))) :
    (ScorerBreakout.run i sr).signal = .flat := by
  have hfalse : ScorerBreakout.isHighLiquidityHour
      (ScorerBreakout.utcHour (i.data_15m.headD default).time) = false := by
    simp only [ScorerBreakout.isHighLiquidityHour]
    push_neg at hout
    simp only [Bool.or_eq_false_iff, Bool.and_eq_false_iff]
    constructor
    · by_cases h7 : 7 ≤ ScorerBreakout.utcHour (i.data_15m.headD default).time
      · refine Or.inr ?_
        simpa using (hout.1 h7)
      · refine Or.inl ?_
        simpa using h7
    · by_cases h12 : 12 ≤ ScorerBreakout.utcHour (i.data_15m.headD default).time
      · refine Or.inr ?_
        simpa using (hout.2 h12)
      · refine Or.inl ?_
        simpa using h12
  simp only [ScorerBreakout.run]
  split
  · rfl
  · split
    · rfl
    · split
      · rfl
      · rw [hfalse, scorerBreakout_entryRule_none]
        rfl

set_option maxRecDepth 100000 in
unseal Rat.add Rat.mul Rat.inv Rat.sub Rat.ofScientific in
/-- C5 witness: a bundle whose break, retest-zone and RSI conditions all
hold but whose current bar is stamped 18:00 UTC stays flat. -/
theorem c5_witness :
    ScorerBreakout.utcHour (bundleBR.data_15m.headD default).time = 18 ∧
    (ScorerBreakout.run bundleBR srBR).signal = .flat :=
  ⟨by decide, c5_session_filter bundleBR srBR (by decide)⟩

theorem volMult_eq : ScorerTrend.VOLATILITY_SPIKE_MULT = 3 := by
  norm_num [ScorerTrend.VOLATILITY_SPIKE_MULT]

/-- C2 (amended): the volatility-spike veto exists only in the
momentum/pullback (trend), mean-reversion and break-and-retest scorers:
whenever the current 15m bar range strictly exceeds 3.0 times the 15m
ATR, those three return a flat Signal. The structure, VWAP and liquidity
scorers have no such veto (see the counterexample). -/
theorem c2_volatility_veto (i : CandleBundle) (sr : SrData) (a : ℚ)
    (hatr : ScorerTrend.calculateATR i.data_15m 14 = some a)
    (hspike : current15mRange i > a * 3) :
    (ScorerTrend.run i sr).signal = .flat ∧
    (ScorerMeanReversion.run i sr).signal = .flat ∧
    (ScorerBreakout.run i sr).signal = .flat := by
  have hcond : current15mRange i >
      (ScorerTrend.calculateATR i.data_15m 14).getD 0 * ScorerTrend.VOLATILITY_SPIKE_MULT := by
    rw [hatr, volMult_eq]
    exact hspike
  have hcond3 : current15mRange i >
      (ScorerTrend.calculateATR i.data_15m 14).getD 0 * 3.0 := by
    rw [hatr]
    show current15mRange i > a * ((3.0 : ℚ))
    have h3 : ((3.0 : ℚ)) = 3 := by norm_num
    rw [h3]
    exact hspike
  have hcondMR : current15mRange i >
      (ScorerMeanReversion.calculateATR i.data_15m 14).getD 0 *
        ScorerMeanReversion.VOLATILITY_SPIKE_MULT := hcond
  have hcondBR : current15mRange i >
      (ScorerBreakout.calculateATR i.data_15m 14).getD 0 * 3.0 := hcond3
  refine ⟨?_, ?_, ?_⟩
  · simp only [ScorerTrend.run]
    rw [if_pos hcond]
    split
    · rfl
    split
    · rfl
    rfl
  · simp only [ScorerMeanReversion.run]
    rw [if_pos hcondMR]
    split
    · rfl
    split
    · rfl
    rfl
  · simp only [ScorerBreakout.run]
    rw [if_pos hcondBR]
    split
    · rfl
    split
    · rfl
    rfl

set_option maxRecDepth 1000000 in
unseal Rat.add Rat.mul Rat.inv Rat.sub Rat.ofScientific in
/-- C2 counterexample: a bundle whose current 15m bar range (10) exceeds
3 times the 15m ATR (23/14), on which the market-structure scorer still
emits a buy Signal with confidence 0.7: the volatility-spike veto is
absent from that scorer, against the claim that all six scorers veto. -/
theorem c2_counterexample :
    ScorerTrend.calculateATR bundleSpike.data_15m 14 = some (23 / 14) ∧
    current15mRange bundleSpike > (23 / 14) * 3 ∧
    (ScorerStructure.run bundleSpike srSpike).signal = .buy ∧
    (ScorerStructure.run bundleSpike srSpike).confidence = 7 / 10 := by
  exact ⟨by decide, by decide, by decide, by decide⟩

set_option maxRecDepth 1000000 in
unseal Rat.add Rat.mul Rat.inv Rat.sub Rat.ofScientific in
/-- C2 witness: the amended veto theorem applied to the spike bundle:
the three scorers that implement the veto all stay flat there. -/
theorem c2_witness :
    (ScorerTrend.run bundleSpike srSpike).signal = .flat ∧
    (ScorerMeanReversion.run bundleSpike srSpike).signal = .flat ∧
    (ScorerBreakout.run bundleSpike srSpike).signal = .flat :=
  c2_volatility_veto bundleSpike srSpike (23 / 14) (by decide) (by decide)

theorem srBonus_nonneg (price zone : ℚ) (levels : List (Option ℚ × ℚ))
    (h : ∀ lv ∈ levels, 0 ≤ lv.2) :
    0 ≤ ScorerMeanReversion.srBonus price zone levels := by
  unfold ScorerMeanReversion.srBonus
  split
  · rename_i lv hfind
    exact h lv (List.mem_of_find?_eq_some hfind)
  · exact le_refl 0

theorem buySideBonus_nonneg (candleData : CandleBundle) (srData : SrData) :
    0 ≤ ScorerMeanReversion.buySideBonus candleData srData := by
  simp only [ScorerMeanReversion.buySideBonus]
  refine srBonus_nonneg _ _ _ ?_
  intro lv hlv
  simp only [List.mem_cons, List.not_mem_nil, or_false] at hlv
  rcases hlv with h | h | h | h | h <;>
    rw [h] <;>
      norm_num [ScorerMeanReversion.SR_BONUS_MAJOR, ScorerMeanReversion.SR_BONUS_MINOR]

theorem scorerMeanReversion_entryRule_ranging_buy (b2 b3 b6 b7 : Bool) :
    ScorerMeanReversion.entryRule true b2 b3 true true b6 b7 =
      some (.buy, 0.30 + 0.4, "15m Oversold (StochRSI < 20) + Below Lower BB") := rfl

theorem scorerMeanReversion_finish_keep (symbol : String) (srData : SrData)
    (meta : Meta) (pipSize : ℚ) (inds : Indicators) (currentPrice last_atr_1h : ℚ)
    (bbMiddle : Option ℚ) (cRaw : ℚ) (reason0 : String)
    (h : (0.30 : ℚ) ≤ min 1 cRaw) :
    (ScorerMeanReversion.finish symbol srData meta pipSize inds currentPrice
      last_atr_1h bbMiddle .buy cRaw reason0).signal = .buy ∧
    (ScorerMeanReversion.finish symbol srData meta pipSize inds currentPrice
      last_atr_1h bbMiddle .buy cRaw reason0).confidence = min 1 cRaw := by
  simp only [ScorerMeanReversion.finish]
  rw [if_neg (not_lt.mpr h)]
  exact ⟨rfl, rfl⟩

/-- C7: whenever the mean-reversion scorer input passes the
data-sufficiency gate, the indicator-validity gate and the
volatility-spike gate, the 4h ADX(14) is below the trend threshold 25
(ranging regime), the 15m Stochastic-RSI slow percent-K is below 20 and
the last 15m close is below the lower Bollinger Band(20, 2), the scorer
emits a buy Signal whose confidence is the base 0.30 plus the ranging
reward 0.40 (that is 0.70) plus the tiered S/R bonus, capped at 1.0. -/
theorem c7_mean_reversion_scenario (i : CandleBundle) (sr : SrData)
    (h4 : 50 ≤ i.data_4h.length) (h15 : 50 ≤ i.data_15m.length)
    (h1h : 30 ≤ i.data_1h.length) (hpv : sr.pivots ≠ none)
    (hadx : tq (ScorerMeanReversion.calculateADX i.data_4h 14).adx = true)
    (hk : tq (ScorerMeanReversion.calculateStochasticRSI i.data_15m 14 14 3 3).k = true)
    (hup : tq (ScorerMeanReversion.calculateBollingerBands i.data_15m 20 2).upper = true)
    (hatr1 : tq (ScorerMeanReversion.calculateATR i.data_1h 14) = true)
    (hatr15 : tq (ScorerMeanReversion.calculateATR i.data_15m 14) = true)
    (hvol : current15mRange i ≤
      (ScorerMeanReversion.calculateATR i.data_15m 14).getD 0 *
        ScorerMeanReversion.VOLATILITY_SPIKE_MULT)
    (hrange : (ScorerMeanReversion.calculateADX i.data_4h 14).adx.getD 0 <
      ScorerMeanReversion.ADX_TREND_THRESHOLD)
    (hos : (ScorerMeanReversion.calculateStochasticRSI i.data_15m 14 14 3 3).k.getD 0 < 20)
    (hlb : lastPrice15m i <
      (ScorerMeanReversion.calculateBollingerBands i.data_15m 20 2).lower.getD 0) :
    (ScorerMeanReversion.run i sr).signal = .buy ∧
    (ScorerMeanReversion.run i sr).confidence =
      min 1 ((0.30 + 0.4) + ScorerMeanReversion.buySideBonus i sr) ∧
    (ScorerMeanReversion.run i sr).confidence ≤ 1 := by
  have hg : ¬ (i.data_4h.length < 50 ∨ i.data_15m.length < 50 ∨
      i.data_1h.length < 30 ∨ sr.pivots = none) := by
    simp only [not_or]
    exact ⟨not_lt.mpr h4, not_lt.mpr h15, not_lt.mpr h1h, hpv⟩
  have hv : ¬ (¬ tq (ScorerMeanReversion.calculateADX i.data_4h 14).adx = true ∨
      ¬ tq (ScorerMeanReversion.calculateStochasticRSI i.data_15m 14 14 3 3).k = true ∨
      ¬ tq (ScorerMeanReversion.calculateBollingerBands i.data_15m 20 2).upper = true ∨
      ¬ tq (ScorerMeanReversion.calculateATR i.data_1h 14) = true ∨
      ¬ tq (ScorerMeanReversion.calculateATR i.data_15m 14) = true) := by
    simp only [not_or, not_not]
    exact ⟨hadx, hk, hup, hatr1, hatr15⟩
  have hnv : ¬ (current15mRange i >
      (ScorerMeanReversion.calculateATR i.data_15m 14).getD 0 *
        ScorerMeanReversion.VOLATILITY_SPIKE_MULT) := not_lt.mpr hvol
  have hd1 : decide ((ScorerMeanReversion.calculateADX i.data_4h 14).adx.getD 0 <
      ScorerMeanReversion.ADX_TREND_THRESHOLD) = true := decide_eq_true hrange
  have hd2 : decide
      ((ScorerMeanReversion.calculateStochasticRSI i.data_15m 14 14 3 3).k.getD 0 < 20) =
      true := decide_eq_true hos
  have hd3 : decide (lastPrice15m i <
      (ScorerMeanReversion.calculateBollingerBands i.data_15m 20 2).lower.getD 0) = true :=
    decide_eq_true hlb
  have hb := buySideBonus_nonneg i sr
  have hge : (0.30 : ℚ) ≤ min 1 ((0.30 + 0.4) + ScorerMeanReversion.buySideBonus i sr) := by
    refine le_min (by norm_num) ?_
    have h34 : (0.30 : ℚ) ≤ 0.30 + 0.4 := by norm_num
    linarith
  refine ⟨?_, ?_, ?_⟩
  · simp only [ScorerMeanReversion.run]
    rw [if_neg hg, if_neg hv, if_neg hnv, hd1, hd2, hd3,
      scorerMeanReversion_entryRule_ranging_buy]
    exact (scorerMeanReversion_finish_keep _ _ _ _ _ _ _ _ _ _ hge).1
  · simp only [ScorerMeanReversion.run]
    rw [if_neg hg, if_neg hv, if_neg hnv, hd1, hd2, hd3,
      scorerMeanReversion_entryRule_ranging_buy]
    exact (scorerMeanReversion_finish_keep _ _ _ _ _ _ _ _ _ _ hge).2
  · simp only [ScorerMeanReversion.run]
    rw [if_neg hg, if_neg hv, if_neg hnv, hd1, hd2, hd3,
      scorerMeanReversion_entryRule_ranging_buy]
    exact le_trans (le_of_eq (scorerMeanReversion_finish_keep _ _ _ _ _ _ _ _ _ _ hge).2)
      (min_le_left _ _)

set_option maxRecDepth 1000000 in
unseal Rat.add Rat.mul Rat.inv Rat.sub Rat.ofScientific in
/-- C7 witness: the ranging oversold bundle satisfies every hypothesis
of the scenario theorem, and there the buy comes out at confidence
exactly 0.70 (its S/R bonus is 0, its pivots all being far away). -/
theorem c7_witness :
    (ScorerMeanReversion.run bundleMR srMR).signal = .buy ∧
    (ScorerMeanReversion.run bundleMR srMR).confidence =
      min 1 ((0.30 + 0.4) + ScorerMeanReversion.buySideBonus bundleMR srMR) ∧
    (ScorerMeanReversion.run bundleMR srMR).confidence ≤ 1 :=
  c7_mean_reversion_scenario bundleMR srMR (by decide) (by decide) (by decide)
    (by decide) (by decide) (by decide) (by decide) (by decide) (by decide)
    (by decide) (by decide) (by decide) (by decide)

/-- C6: in the trend scorer S/R context adjustment, at most one
adjustment applies per evaluation. For a buy, any resistance level whose
zone contains the price yields exactly the 0.3 penalty and suppresses
the support bonus; only when no resistance zone matches can a matching
support zone add the 0.2 bonus. A sell mirrors the two roles, and
missing (null or undefined) levels are dropped before scanning. -/
theorem c6_sr_adjust_exclusive (price zone conf : ℚ) (reason : String)
    (supports resistances : List ℚ) :
    ((∃ r ∈ resistances, inZone price r zone = true) →
      (ScorerTrend.srAdjust true price zone supports resistances conf reason).1 = conf - 0.3) ∧
    ((∀ r ∈ resistances, inZone price r zone = false) →
      (∃ s ∈ supports, inZone price s zone = true) →
      (ScorerTrend.srAdjust true price zone supports resistances conf reason).1 = conf + 0.2) ∧
    ((∃ s ∈ supports, inZone price s zone = true) →
      (ScorerTrend.srAdjust false price zone supports resistances conf reason).1 = conf - 0.3) ∧
    ((∀ s ∈ supports, inZone price s zone = false) →
      (∃ r ∈ resistances, inZone price r zone = true) →
      (ScorerTrend.srAdjust false price zone supports resistances conf reason).1 = conf + 0.2) ∧
    (∀ raw, ScorerTrend.filterLevels (none :: raw) = ScorerTrend.filterLevels raw) := by
  refine ⟨?_, ?_, ?_, ?_, fun raw => rfl⟩
  · intro hex
    have hs : (resistances.find? (fun r => inZone price r zone)).isSome :=
      List.find?_isSome.mpr hex
    rcases hfind : resistances.find? (fun r => inZone price r zone) with _ | x
    · rw [hfind] at hs
      simp at hs
    · simp only [ScorerTrend.srAdjust, hfind]
      simp
  · intro hall hex
    have hnone : resistances.find? (fun r => inZone price r zone) = none :=
      List.find?_eq_none.mpr (fun x hx => by simp [hall x hx])
    have hs : (supports.find? (fun s => inZone price s zone)).isSome :=
      List.find?_isSome.mpr hex
    rcases hfind : supports.find? (fun s => inZone price s zone) with _ | x
    · rw [hfind] at hs
      simp at hs
    · simp only [ScorerTrend.srAdjust, hnone, hfind]
      simp
  · intro hex
    have hs : (supports.find? (fun s => inZone price s zone)).isSome :=
      List.find?_isSome.mpr hex
    rcases hfind : supports.find? (fun s => inZone price s zone) with _ | x
    · rw [hfind] at hs
      simp at hs
    · simp only [ScorerTrend.srAdjust, hfind]
      simp
  · intro hall hex
    have hnone : supports.find? (fun s => inZone price s zone) = none :=
      List.find?_eq_none.mpr (fun x hx => by simp [hall x hx])
    have hs : (resistances.find? (fun r => inZone price r zone)).isSome :=
      List.find?_isSome.mpr hex
    rcases hfind : resistances.find? (fun r => inZone price r zone) with _ | x
    · rw [hfind] at hs
      simp at hs
    · simp only [ScorerTrend.srAdjust, hnone, hfind]
      simp

unseal Rat.add Rat.mul Rat.inv Rat.sub Rat.ofScientific in
/-- C6 witness: the exclusivity theorem applied at concrete levels: a
buy inside a resistance zone loses 0.3 even though a support zone also
matches, and a buy with no matching resistance gains 0.2 from the first
matching support. -/
theorem c6_witness :
    (ScorerTrend.srAdjust true 100 1 [99.5] [100.5] 0.6 "r").1 = 0.6 - 0.3 ∧
    (ScorerTrend.srAdjust true 100 1 [99.5] [200] 0.6 "r").1 = 0.6 + 0.2 := by
  have h1 := c6_sr_adjust_exclusive 100 1 0.6 "r" [99.5] [100.5]
  have h2 := c6_sr_adjust_exclusive 100 1 0.6 "r" [99.5] [200]
  refine ⟨h1.1 ⟨100.5, by decide, by decide⟩, h2.2.1 ?_ ⟨99.5, by decide, by decide⟩⟩
  intro r hr
  have : r = 200 := by
    rcases List.mem_singleton.mp hr with rfl
    rfl
  subst this
  decide

/-- C8: the Confluence Aggregator, as the big-step evaluation relation
of its grouping loop, is deterministic: two evaluations of the same
input item list produce the same output record list. -/
theorem c8_aggregator_deterministic (items : List Sig) (out1 out2 : List AggOut)
    (h1 : Confluence.ConfAgg items out1) (h2 : Confluence.ConfAgg items out2) :
    out1 = out2 :=
  procList_det (Confluence.groupBySymbol items) out1 out2 h1 h2

/-- C8 witness: a concrete derivation of the aggregator relation on a
one-item batch, and the determinism theorem applied to it twice. -/
theorem c8_witness :
    Confluence.ConfAgg [sigNoInd] [aggFlatNoConf] ∧
    ([aggFlatNoConf] : List AggOut) = [aggFlatNoConf] := by
  have hder : Confluence.ConfAgg [sigNoInd] [aggFlatNoConf] := by
    show Confluence.ProcList (Confluence.groupBySymbol [sigNoInd]) [aggFlatNoConf]
    have hg : Confluence.groupBySymbol [sigNoInd] = [("EURUSD", [sigNoInd])] := by decide
    rw [hg]
    exact Confluence.ProcList.consSome (by decide) Confluence.ProcList.nil
  exact ⟨hder, c8_aggregator_deterministic [sigNoInd] _ _ hder hder⟩
